import Mathlib

/-!
Shallow embedding of the AgroForgeSIM daily crop engine
(`backend/engine/sim.py`, `backend/engine/harvest.py`,
`backend/engine/models.py`, `backend/engine/params.py`).

Python floats are modelled as exact rationals (`ℚ`).  The single
transcendental operation in the engine, `math.exp` inside the APAR
(Beer-Lambert) term of `step_day`, is abstracted as an explicit function
parameter `E : ℚ → ℚ`; theorems that need facts about the exponential
hypothesize exactly the properties of `exp` they use (for instance
`E x ≤ 1` for `x ≤ 0`).  Python dictionaries with string keys are
modelled as ordered association lists, matching insertion-order
iteration.  Fallible code (index errors, `raise`) is modelled with
`Option`/`Except`.
-/

set_option maxHeartbeats 1600000

/-- Growth-stage parameterization, from `models.StageParams`.  Exactly the
fields of the Python dataclass; `partition` and `nuptake_target` are the
insertion-ordered dicts. -/
structure StageParams where
  name : String
  gdd_target : Option ℚ
  dap_target : Option ℕ
  kc : ℚ
  rue : ℚ
  lai_gain : ℚ
  partition : List (String × ℚ)
  nuptake_target : List (String × ℚ)
deriving DecidableEq

/-- Crop-specific physiological constants, from `models.CropParams`
(`t_opt` embeds the Python field `to`, a reserved word in Lean; it is
never consumed by the core math). -/
structure CropParams where
  species : String
  cultivar : String
  tb : ℚ
  t_opt : ℚ
  lai_max : ℚ
  hi : ℚ
  stages : List StageParams
  stress_sensitivity : List (String × ℚ)
deriving DecidableEq

/-- Single soil layer, from `models.SoilLayer`. -/
structure SoilLayer where
  depth_cm : ℤ
  fc : ℚ
  wp : ℚ
  ks : ℚ
  om_pct : ℚ
  ph : ℚ
deriving DecidableEq

/-- Soil profile, from `models.SoilProfile`. -/
structure SoilProfile where
  layers : List SoilLayer
  runoff_threshold_mm : ℚ
deriving DecidableEq

/-- Total available water capacity (mm): the `rootzone_capacity` property of
`models.SoilProfile`, `sum(max(0.0, ly.fc) for ly in self.layers)`. -/
def rootzone_capacity (s : SoilProfile) : ℚ :=
  (s.layers.map (fun ly => max 0 ly.fc)).sum

/-- Agronomic management configuration, from `models.Management`
(the `fert_events` list is never consumed by the engine core). -/
structure Management where
  plant_date : String
  density_plants_m2 : ℚ
  irrigation_mm_day : ℚ
deriving DecidableEq

/-- Daily weather forcing, from `models.WeatherDay`. -/
structure WeatherDay where
  date : String
  tmin : ℚ
  tmax : ℚ
  rain : ℚ
  rad : ℚ
  et0 : Option ℚ
  wind : Option ℚ
  rh : Option ℚ
deriving DecidableEq

/-- Mutable per-field simulation state, from `models.FieldState`.  The
free-form `notes` dict is an insertion-ordered association list. -/
structure FieldState where
  date : String
  stage_index : ℕ
  gdd_accum : ℚ
  dap : ℕ
  lai : ℚ
  biomass_dm_kg_ha : ℚ
  soil_water_mm : ℚ
  stress_w : ℚ
  stress_n : ℚ
  n_stock_kg_ha : ℚ
  p_stock_kg_ha : ℚ
  k_stock_kg_ha : ℚ
  notes : List (String × ℚ)
deriving DecidableEq

/-- Configuration of a single simulated field, from `models.FieldConfig`. -/
structure FieldConfig where
  id : String
  name : String
  area_ha : ℚ
  soil : SoilProfile
  crop : CropParams
  management : Management
deriving DecidableEq

/-- Daily simulation result record, from `models.DayResult`. -/
structure DayResult where
  date : String
  stage : String
  lai : ℚ
  biomass_dm_kg_ha : ℚ
  soil_water_mm : ℚ
  stress_w : ℚ
  stress_n : ℚ
  n_stock_kg_ha : ℚ
  p_stock_kg_ha : ℚ
  k_stock_kg_ha : ℚ
  gdd_progress : Option ℚ
  gdd_target : Option ℚ
  crop : Option String
deriving DecidableEq

/-- Aggregate run output per field, from `models.RunResult`. -/
structure RunResult where
  field_id : String
  series : List DayResult
  yield_t_ha : Option ℚ
  harvest_date : Option String
  grade : Option String
deriving DecidableEq

/-- Planned or completed harvest operation, from `models.HarvestTask`. -/
structure HarvestTask where
  field_id : String
  crop : String
  planned_date : String
  expected_yield_t_ha : ℚ
  maturity_ratio : ℚ
  ripe_color : String
  actual_yield_t_ha : Option ℚ
  completed : Bool
deriving DecidableEq

/-- Dictionary read with default, `d.get(k, dflt)` on a Python string-keyed
dict modelled as an ordered association list. -/
def dget (d : List (String × ℚ)) (k : String) (dflt : ℚ) : ℚ :=
  match d.find? (fun p => p.1 == k) with
  | some p => p.2
  | none => dflt

/-- Dictionary write, `d[k] = v`: replaces in place if the key is present,
else appends (Python dicts keep insertion order). -/
def dset : List (String × ℚ) → String → ℚ → List (String × ℚ)
  | [], k, v => [(k, v)]
  | p :: ps, k, v => if p.1 == k then (k, v) :: ps else p :: dset ps k v

/-- Growing-degree day for a single day, `sim.gdd_day`. -/
def gdd_day (tmin tmax tb : ℚ) : ℚ :=
  max 0 ((tmin + tmax) / 2 - tb)

/-- Crop evapotranspiration from reference ET0 and Kc, `sim.etc_from_kc`. -/
def etc_from_kc (et0 kc : ℚ) : ℚ :=
  max 0 (et0 * kc)

/-- Ordered list of stages up to and including the current stage name;
embeds `sim.crop_stage_prefix` (append each stage, stop after the match). -/
def crop_stages_through (current : String) : List StageParams → List StageParams
  | [] => []
  | s :: rest => if s.name == current then [s] else s :: crop_stages_through current rest

/-- Out-of-range stage placeholder carrying the `models.StageParams` field
defaults (`kc=1.0`, `rue=1.5`, `lai_gain=0.12`).  Along `run_field` the
stage index stays in range whenever the stage list is non-empty, so this
value is never observed there. -/
def default_stage : StageParams :=
  { name := "", gdd_target := none, dap_target := none,
    kc := 1, rue := 1.5, lai_gain := 0.12, partition := [], nuptake_target := [] }

/-- Stage record at an index, `crop.stages[i]`. -/
def stage_at (c : CropParams) (i : ℕ) : StageParams :=
  c.stages.getD i default_stage

/-- Stage-advance rule, `sim._advance_stage`: thermal-time target takes
precedence over the day-count target; advance by exactly one when the
relevant accumulator reached the target and the stage is not the last. -/
def advance_stage (c : CropParams) (st : FieldState) : FieldState :=
  let stage := stage_at c st.stage_index
  let cond : Bool :=
    match stage.gdd_target with
    | some g => decide (g ≤ st.gdd_accum)
    | none =>
      match stage.dap_target with
      | some d => decide (d ≤ st.dap)
      | none => false
  if cond && decide (st.stage_index < c.stages.length - 1) then
    { st with stage_index := st.stage_index + 1 }
  else st

/-- The `runoff` local of `sim._water_balance`:
`max(0.0, inflow_mm - soil.runoff_threshold_mm) * 0.3`. -/
def wb_runoff (soil : SoilProfile) (inflow_mm : ℚ) : ℚ :=
  max 0 (inflow_mm - soil.runoff_threshold_mm) * 0.3

/-- Soil water after adding the net inflow and clamping at capacity (the
first two statements of `sim._water_balance`). -/
def wb_w2 (st : FieldState) (soil : SoilProfile) (inflow_mm : ℚ) : ℚ :=
  min (st.soil_water_mm + (inflow_mm - wb_runoff soil inflow_mm)) (rootzone_capacity soil)

/-- The `transp_pot` local of `sim._water_balance`:
`etc_pot * min(1.0, st.lai / 3.0)`. -/
def wb_transp_pot (st : FieldState) (etc_pot : ℚ) : ℚ :=
  etc_pot * min 1 (st.lai / 3)

/-- The `transp_act` local of `sim._water_balance`: potential transpiration
capped by the water available after inflow. -/
def wb_transp_act (st : FieldState) (soil : SoilProfile) (inflow_mm etc_pot : ℚ) : ℚ :=
  min (wb_transp_pot st etc_pot) (wb_w2 st soil inflow_mm)

/-- Soil water after transpiration has been subtracted. -/
def wb_w3 (st : FieldState) (soil : SoilProfile) (inflow_mm etc_pot : ℚ) : ℚ :=
  wb_w2 st soil inflow_mm - wb_transp_act st soil inflow_mm etc_pot

/-- The `soil_evap` local of `sim._water_balance`, capped at the remaining
soil water. -/
def wb_soil_evap (st : FieldState) (soil : SoilProfile) (inflow_mm etc_pot : ℚ) : ℚ :=
  min (max 0 (etc_pot - wb_transp_act st soil inflow_mm etc_pot) * (1 - min 1 (st.lai / 3)))
    (wb_w3 st soil inflow_mm etc_pot)

/-- Soil water at the end of `sim._water_balance`. -/
def wb_w4 (st : FieldState) (soil : SoilProfile) (inflow_mm etc_pot : ℚ) : ℚ :=
  wb_w3 st soil inflow_mm etc_pot - wb_soil_evap st soil inflow_mm etc_pot

/-- The water-stress ratio set by `sim._water_balance`:
`max(0.001, min(1.0, (transp_act + 1e-6) / (transp_pot + 1e-6)))`. -/
def wb_stress (st : FieldState) (soil : SoilProfile) (inflow_mm etc_pot : ℚ) : ℚ :=
  max 0.001 (min 1 ((wb_transp_act st soil inflow_mm etc_pot + 0.000001) /
    (wb_transp_pot st etc_pot + 0.000001)))

/-- Bucket soil-water model, `sim._water_balance`: runoff above a threshold,
inflow clamped at capacity, transpiration and soil evaporation outflows,
and the water-stress ratio (the locals of the Python function are the
`wb_*` definitions above).  The Python function also returns
`(transp_act, soil_evap)`, which the caller discards. -/
def water_balance (st : FieldState) (soil : SoilProfile) (inflow_mm etc_pot : ℚ) :
    FieldState :=
  { st with soil_water_mm := wb_w4 st soil inflow_mm etc_pot,
            stress_w := wb_stress st soil inflow_mm etc_pot }

/-- Nutrient stock read, `getattr(st, f"{key.lower()}_stock_kg_ha")`.  Keys
other than N/P/K would raise `AttributeError` in Python and never occur in
the catalog; they read as 0 here. -/
def stock_get (st : FieldState) (key : String) : ℚ :=
  let k := key.toLower
  if k == "n" then st.n_stock_kg_ha
  else if k == "p" then st.p_stock_kg_ha
  else if k == "k" then st.k_stock_kg_ha
  else 0

/-- Nutrient stock write, `setattr(st, f"{key.lower()}_stock_kg_ha", v)`;
non-N/P/K keys (impossible from the catalog) are a no-op here. -/
def stock_set (st : FieldState) (key : String) (v : ℚ) : FieldState :=
  let k := key.toLower
  if k == "n" then { st with n_stock_kg_ha := v }
  else if k == "p" then { st with p_stock_kg_ha := v }
  else if k == "k" then { st with k_stock_kg_ha := v }
  else st

/-- One iteration of the uptake loop in `sim._nutrients`, for one
`(key, target)` item of the stage's `nuptake_target` dict
(`daily_uptake_cap` is the fixed default 8.0). -/
def uptake_step (stage_name : String) (st : FieldState) (kv : String × ℚ) : FieldState :=
  let key := kv.1
  let target := kv.2
  let stock := stock_get st key
  let note_key := key ++ "_taken_" ++ stage_name
  let taken_so_far := dget st.notes note_key 0
  let needed := max 0 (target - taken_so_far)
  let take := min 8 needed * st.stress_w
  let st1 := stock_set st key (stock + take)
  { st1 with notes := dset st1.notes note_key (taken_so_far + take) }

/-- The `ratio` local of `sim._nutrients`, computed on the state after the
uptake loop: cumulative nitrogen taken (notes entries starting
`"N_taken_"`) over cumulative nitrogen demanded through the current stage,
with epsilon guards; 1.0 when nothing is demanded. -/
def nu_ratio (st1 : FieldState) (stage : StageParams) (c : CropParams) : ℚ :=
  let demanded :=
    ((crop_stages_through stage.name c.stages).map (fun s => dget s.nuptake_target "N" 0)).sum
  let taken := ((st1.notes.filter (fun p => p.1.startsWith "N_taken_")).map Prod.snd).sum
  if 0 < demanded then min 1 ((taken + 0.000001) / (demanded + 0.000001)) else 1

/-- Simplified nutrient uptake tracking and nitrogen-stress proxy,
`sim._nutrients`. -/
def nutrients_update (st : FieldState) (stage : StageParams) (c : CropParams) :
    FieldState :=
  let st1 := stage.nuptake_target.foldl (uptake_step stage.name) st
  { st1 with stress_n := max 0.4 (nu_ratio st1 stage c) }

/-- The date/phenology bookkeeping at the top of `sim.step_day`: set the
date, increment days-after-planting, accumulate thermal time. -/
def dc_st1 (f : FieldConfig) (st : FieldState) (w : WeatherDay) : FieldState :=
  { st with date := w.date, dap := st.dap + 1,
            gdd_accum := st.gdd_accum + gdd_day w.tmin w.tmax f.crop.tb }

/-- Reference ET0 used by `sim.step_day`: the weather value if present, else
the simple Hargreaves-like fallback
`max(2.0, 0.0023*(tmax-tmin)*((tmin+tmax)/2.0) + 2.0)`. -/
def dc_et0 (w : WeatherDay) : ℚ :=
  match w.et0 with
  | some e => e
  | none => max 2 (0.0023 * (w.tmax - w.tmin) * ((w.tmin + w.tmax) / 2) + 2)

/-- Crop evapotranspiration for the day, `etc_from_kc(et0, stage.kc)`. -/
def dc_etc (stage : StageParams) (w : WeatherDay) : ℚ :=
  etc_from_kc (dc_et0 w) stage.kc

/-- Water inflow for the day,
`w.rain + (field.management.irrigation_mm_day or 0.0)` (for a float the
`or 0.0` is the identity). -/
def dc_inflow (f : FieldConfig) (w : WeatherDay) : ℚ :=
  w.rain + f.management.irrigation_mm_day

/-- State after `_water_balance` inside `sim.step_day`. -/
def dc_st2 (f : FieldConfig) (stage : StageParams) (st : FieldState) (w : WeatherDay) :
    FieldState :=
  water_balance (dc_st1 f st w) f.soil (dc_inflow f w) (dc_etc stage w)

/-- State after `_nutrients` inside `sim.step_day`. -/
def dc_st3 (f : FieldConfig) (stage : StageParams) (st : FieldState) (w : WeatherDay) :
    FieldState :=
  nutrients_update (dc_st2 f stage st w) stage f.crop

/-- The `lai_gain` local of `sim.step_day`: logistic LAI gain gated by both
stress factors. -/
def dc_lai_gain (f : FieldConfig) (stage : StageParams) (st : FieldState) (w : WeatherDay) : ℚ :=
  stage.lai_gain * (dc_st3 f stage st w).lai
    * (1 - (dc_st3 f stage st w).lai / f.crop.lai_max)
    * (dc_st3 f stage st w).stress_w * (dc_st3 f stage st w).stress_n

/-- State after the LAI update inside `sim.step_day`. -/
def dc_st4 (f : FieldConfig) (stage : StageParams) (st : FieldState) (w : WeatherDay) :
    FieldState :=
  { dc_st3 f stage st w with
    lai := min f.crop.lai_max ((dc_st3 f stage st w).lai + dc_lai_gain f stage st w) }

/-- The `apar` local of `sim.step_day`, Beer-Lambert interception of the
day's radiation at the updated LAI; `E` stands for `math.exp`. -/
def dc_apar (E : ℚ → ℚ) (f : FieldConfig) (stage : StageParams) (st : FieldState)
    (w : WeatherDay) : ℚ :=
  w.rad * (1 - E (-0.65 * (dc_st4 f stage st w).lai))

/-- The `dB` local of `sim.step_day`: daily dry-matter gain. -/
def dc_dB (E : ℚ → ℚ) (f : FieldConfig) (stage : StageParams) (st : FieldState)
    (w : WeatherDay) : ℚ :=
  stage.rue * dc_apar E f stage st w
    * (dc_st4 f stage st w).stress_w * (dc_st4 f stage st w).stress_n

/-- Everything `sim.step_day` does with the stage record it read at entry:
date/phenology bookkeeping, ET0 fallback, water balance, nutrients, LAI
logistic gain, and biomass accumulation from APAR; the `dc_*` definitions
above are the Python locals, in execution order. -/
def day_core (E : ℚ → ℚ) (f : FieldConfig) (stage : StageParams) (st : FieldState)
    (w : WeatherDay) : FieldState :=
  { dc_st4 f stage st w with
    biomass_dm_kg_ha := (dc_st4 f stage st w).biomass_dm_kg_ha + dc_dB E f stage st w }

/-- Advance the field one day, `sim.step_day`: the stage record is read once
at entry (before any update) and governs the whole day; the stage index is
advanced only at the very end. -/
def step_day (E : ℚ → ℚ) (f : FieldConfig) (st : FieldState) (w : WeatherDay) :
    FieldState :=
  advance_stage f.crop (day_core E f (stage_at f.crop st.stage_index) st w)

/-- Initial `FieldState` built at the top of `sim.run_field`: all dataclass
defaults except the date and `soil_water_mm = min(120.0, rootzone_capacity)`. -/
def init_state (f : FieldConfig) (d : String) : FieldState :=
  { date := d, stage_index := 0, gdd_accum := 0, dap := 0, lai := 0.05,
    biomass_dm_kg_ha := 0, soil_water_mm := min 120 (rootzone_capacity f.soil),
    stress_w := 1, stress_n := 1,
    n_stock_kg_ha := 0, p_stock_kg_ha := 0, k_stock_kg_ha := 0, notes := [] }

/-- The sequence of post-step states along a weather series (the state the
loop body of `sim.run_field` snapshots into each `DayResult`). -/
def steps_from (E : ℚ → ℚ) (f : FieldConfig) : FieldState → List WeatherDay → List FieldState
  | _, [] => []
  | st, w :: ws =>
    let st1 := step_day E f st w
    st1 :: steps_from E f st1 ws

/-- The `DayResult` record appended by the loop body of `sim.run_field` for
weather day `w` once the state has been stepped to `st`.  (The local
`maturity` computed there is dead code: it is never used.) -/
def mk_day_result (f : FieldConfig) (w : WeatherDay) (st : FieldState) : DayResult :=
  { date := w.date,
    stage := (stage_at f.crop st.stage_index).name,
    lai := st.lai,
    biomass_dm_kg_ha := st.biomass_dm_kg_ha,
    soil_water_mm := st.soil_water_mm,
    stress_w := st.stress_w,
    stress_n := st.stress_n,
    n_stock_kg_ha := st.n_stock_kg_ha,
    p_stock_kg_ha := st.p_stock_kg_ha,
    k_stock_kg_ha := st.k_stock_kg_ha,
    gdd_progress := some st.gdd_accum,
    gdd_target := (f.crop.stages.getLastD default_stage).gdd_target,
    crop := some f.crop.species }

/-- Junk `DayResult` used only as the `getD` default. -/
def default_day : DayResult :=
  { date := "", stage := "", lai := 0, biomass_dm_kg_ha := 0, soil_water_mm := 0,
    stress_w := 0, stress_n := 0, n_stock_kg_ha := 0, p_stock_kg_ha := 0,
    k_stock_kg_ha := 0, gdd_progress := none, gdd_target := none, crop := none }

/-- Minimum of `vals or [1.0]` as in `harvest.estimate_yield._stage_min`:
1 on the empty list, else the fold of `min`. -/
def list_min_one : List ℚ → ℚ
  | [] => 1
  | [x] => x
  | x :: y :: r => min x (list_min_one (y :: r))

/-- Minimum observed `stress_w` among the days recorded with a given stage
name, defaulting to 1; `harvest.estimate_yield._stage_min` with the default
attribute. -/
def stage_min_w (series : List DayResult) (stage_name : String) : ℚ :=
  list_min_one ((series.filter (fun d => d.stage == stage_name)).map (fun d => d.stress_w))

/-- First index at or after `start` (scanning `n` indices) where `p` holds. -/
def first_true (p : ℕ → Bool) : ℕ → ℕ → Option ℕ
  | 0, _ => none
  | n + 1, start => if p start then some start else first_true p n (start + 1)

/-- The predicate scanned by the harvest-date search in
`harvest.estimate_yield`: `series[i].stage in ("maturity", "grainfill")
and i > 0`. -/
def mat_p (series : List DayResult) : ℕ → Bool := fun i =>
  ((series.getD i default_day).stage == "maturity" ||
    (series.getD i default_day).stage == "grainfill") && decide (0 < i)

/-- Index used for the harvest date in `harvest.estimate_yield`: the first
index satisfying `mat_p`, else `len(series) - 1`. -/
def maturity_index (series : List DayResult) : ℕ :=
  (first_true (mat_p series) series.length 0).getD (series.length - 1)

/-- The `flower_min` local of `harvest.estimate_yield`: minimum water
stress over days labelled "flowering", 1.0 when that stage never occurs
in the series. -/
def ey_flower_min (series : List DayResult) : ℚ :=
  if (series.map (fun d => d.stage)).contains "flowering" then
    stage_min_w series "flowering"
  else 1

/-- The `grain_min` local of `harvest.estimate_yield`. -/
def ey_grain_min (series : List DayResult) : ℚ :=
  if (series.map (fun d => d.stage)).contains "grainfill" then
    stage_min_w series "grainfill"
  else 1

/-- The `hi_penalty` local of `harvest.estimate_yield`: harvest-index
penalty from the stress sensitivities. -/
def ey_hi_penalty (f : FieldConfig) (series : List DayResult) : ℚ :=
  1 - dget f.crop.stress_sensitivity "flower_water" 0 * (1 - ey_flower_min series)
    - dget f.crop.stress_sensitivity "grainfill_water" 0 * (1 - ey_grain_min series)

/-- The `hi_eff` local of `harvest.estimate_yield`:
`max(0.3, min(1.0, crop.hi * hi_penalty))`. -/
def ey_hi_eff (f : FieldConfig) (series : List DayResult) : ℚ :=
  max 0.3 (min 1 (f.crop.hi * ey_hi_penalty f series))

/-- The `grade` local of `harvest.estimate_yield`, from the average of the
two stage minima. -/
def ey_grade (series : List DayResult) : String :=
  if 0.8 < (ey_flower_min series + ey_grain_min series) / 2 then "A"
  else if 0.6 < (ey_flower_min series + ey_grain_min series) / 2 then "B"
  else "C"

/-- Yield (t/ha), harvest date and grade from a completed day series,
`harvest.estimate_yield`; the `ey_*` definitions above are its locals. -/
def estimate_yield (f : FieldConfig) (series : List DayResult) : ℚ × String × String :=
  ((series.getLastD default_day).biomass_dm_kg_ha * ey_hi_eff f series / 1000,
   (series.getD (maturity_index series) default_day).date,
   ey_grade series)

/-- Daily simulation for a single field over a weather series,
`sim.run_field`.  On an empty series Python raises `IndexError` at
`weather[0]` (and the API wrapper `Simulator.run` raises `ValueError`
before ever calling it); with an empty stage list the first `step_day`
would raise.  Both failure modes are embedded as `none`. -/
def run_field (E : ℚ → ℚ) (f : FieldConfig) (weather : List WeatherDay) :
    Option RunResult :=
  match weather with
  | [] => none
  | w0 :: _ =>
    if f.crop.stages.isEmpty then none
    else
      let states := steps_from E f (init_state f w0.date) weather
      let series := List.zipWith (mk_day_result f) weather states
      let yhg := estimate_yield f series
      some { field_id := f.id, series := series, yield_t_ha := some yhg.1,
             harvest_date := some yhg.2.1, grade := some yhg.2.2 }

/-- Readiness flag of a task, the `HarvestTask.is_ready` property:
`maturity_ratio >= 0.9`. -/
def task_ready (t : HarvestTask) : Bool :=
  decide (0.9 ≤ t.maturity_ratio)

/-- Deduplicating task registration, `models.HarvestPlanner.add_task`: scan
the list, return unchanged on the first (field_id, crop) match, else
append. -/
def add_task : List HarvestTask → HarvestTask → List HarvestTask
  | [], t => [t]
  | u :: us, t =>
    if u.field_id == t.field_id && u.crop == t.crop then u :: us
    else u :: add_task us t

/-- One row of the serialized plan built by
`harvest.HarvestManager.plan_schedule`. -/
structure PlanItem where
  field_id : String
  crop : String
  planned_date : String
  expected_yield_t : ℚ
  grade : String
  maturity_ratio : ℚ
  ripe_color : String
deriving DecidableEq

/-- Floor of a rational as an integer (`num.fdiv den` is floor division and
the denominator is positive). -/
def qfloor (x : ℚ) : ℤ :=
  x.num.fdiv x.den

/-- Banker's rounding to an integer (Python `round` on ties-to-even). -/
def round_half_even (x : ℚ) : ℤ :=
  let f := qfloor x
  let r := x - f
  if r < 1 / 2 then f
  else if 1 / 2 < r then f + 1
  else if f % 2 = 0 then f else f + 1

/-- Python `round(x, 2)`. -/
def round2 (x : ℚ) : ℚ :=
  (round_half_even (x * 100) : ℚ) / 100

/-- The dict appended per task by `plan_schedule`: ripeness color from the
maturity ratio, grade "A"/"B" from `is_ready`, yield rounded for display. -/
def mk_plan_item (t : HarvestTask) : PlanItem :=
  { field_id := t.field_id,
    crop := t.crop,
    planned_date := t.planned_date,
    expected_yield_t := round2 t.expected_yield_t_ha,
    grade := if task_ready t then "A" else "B",
    maturity_ratio := t.maturity_ratio,
    ripe_color := if t.maturity_ratio < 0.3 then "#66bb6a"
                  else if t.maturity_ratio < 0.7 then "#fbc02d" else "#e53935" }

/-- Loop body of `plan_schedule` over the date-sorted tasks: append every
visited task, subtract its expected yield from the remaining capacity, and
break the first time the remaining capacity reaches zero or below. -/
def plan_loop (capacity : ℚ) : List HarvestTask → List PlanItem
  | [] => []
  | t :: ts =>
    mk_plan_item t ::
      (if capacity - t.expected_yield_t_ha ≤ 0 then []
       else plan_loop (capacity - t.expected_yield_t_ha) ts)

/-- Stable insertion of a task into a date-sorted list: it goes after every
task with a strictly earlier date and before the first task whose date is
not earlier, which is exactly where Python's stable `sorted` keeps it. -/
def insert_by_date (t : HarvestTask) : List HarvestTask → List HarvestTask
  | [] => [t]
  | u :: us =>
    if u.planned_date < t.planned_date then u :: insert_by_date t us
    else t :: u :: us

/-- Stable sort by `planned_date`, embedding
`sorted(self.planner.tasks, key=lambda x: x.planned_date)`. -/
def sort_tasks : List HarvestTask → List HarvestTask
  | [] => []
  | t :: ts => insert_by_date t (sort_tasks ts)

/-- Capacity-aware plan across fields, `harvest.HarvestManager.plan_schedule`
(tasks is the planner's task list, in registration order). -/
def plan_schedule (tasks : List HarvestTask) (storage_capacity_t : ℚ) : List PlanItem :=
  plan_loop storage_capacity_t (sort_tasks tasks)

/-- Compact constructor for `StageParams` (name, gdd_target, dap_target, kc,
rue, lai_gain, partition, nuptake_target), used to transcribe the catalog
in `params.py`. -/
def mkStage (name : String) (g : Option ℚ) (d : Option ℕ) (kc rue lg : ℚ)
    (part : List (String × ℚ)) (nupt : List (String × ℚ)) : StageParams :=
  { name := name, gdd_target := g, dap_target := d, kc := kc, rue := rue,
    lai_gain := lg, partition := part, nuptake_target := nupt }

/-- Crop defaults transcribed from `params.maize_defaults`. -/
def maize_defaults : CropParams :=
  { species := "maize", cultivar := "DMR-Early", tb := 8, t_opt := 30,
    lai_max := 5, hi := 0.48,
    stress_sensitivity := [("flower_water", 0.6), ("grainfill_water", 0.4), ("n", 0.5)],
    stages :=
      [ mkStage "incubation" (some 80) none 0.35 0.8 0.10
          [("leaf", 0.6), ("stem", 0.4), ("root", 0), ("storage", 0)]
          [("N", 15), ("P", 5), ("K", 10)],
        mkStage "vegetative" (some 650) none 1.05 1.6 0.16
          [("leaf", 0.45), ("stem", 0.40), ("root", 0.15), ("storage", 0)]
          [("N", 80), ("P", 20), ("K", 60)],
        mkStage "flowering" (some 850) none 1.20 1.7 0.10
          [("leaf", 0.25), ("stem", 0.35), ("root", 0.10), ("storage", 0.30)]
          [("N", 40), ("P", 10), ("K", 30)],
        mkStage "grainfill" (some 1200) none 0.95 1.4 0.06
          [("leaf", 0.10), ("stem", 0.15), ("root", 0.05), ("storage", 0.70)]
          [("N", 20), ("P", 5), ("K", 15)],
        mkStage "maturity" none none 0.6 0.5 0
          [("leaf", 0), ("stem", 0), ("root", 0), ("storage", 1)]
          [("N", 0), ("P", 0), ("K", 0)] ] }

/-- Crop defaults transcribed from `params.rice_defaults`. -/
def rice_defaults : CropParams :=
  { species := "rice", cultivar := "IR-64", tb := 10, t_opt := 30,
    lai_max := 6, hi := 0.50,
    stress_sensitivity := [("flower_water", 0.7), ("grainfill_water", 0.5), ("n", 0.45)],
    stages :=
      [ mkStage "nursery" none (some 20) 1.0 1.5 0.10
          [("leaf", 0.5), ("stem", 0.4), ("root", 0.1), ("storage", 0)]
          [("N", 25), ("P", 10), ("K", 25)],
        mkStage "vegetative" none (some 60) 1.1 1.8 0.15
          [("leaf", 0.4), ("stem", 0.4), ("root", 0.2), ("storage", 0)]
          [("N", 60), ("P", 20), ("K", 50)],
        mkStage "flowering" none (some 90) 1.2 1.9 0.08
          [("leaf", 0.2), ("stem", 0.3), ("root", 0.1), ("storage", 0.4)]
          [("N", 30), ("P", 10), ("K", 30)],
        mkStage "grainfill" none (some 120) 1.1 1.5 0.06
          [("leaf", 0.1), ("stem", 0.1), ("root", 0.05), ("storage", 0.75)]
          [("N", 20), ("P", 6), ("K", 25)],
        mkStage "maturity" none none 0.8 0.9 0
          [("leaf", 0), ("stem", 0), ("root", 0), ("storage", 1)]
          [("N", 0), ("P", 0), ("K", 0)] ] }

/-- Crop defaults transcribed from `params.sorghum_defaults`. -/
def sorghum_defaults : CropParams :=
  { species := "sorghum", cultivar := "Macia", tb := 8, t_opt := 32,
    lai_max := 4.5, hi := 0.45,
    stress_sensitivity := [("flower_water", 0.6), ("grainfill_water", 0.4), ("n", 0.5)],
    stages :=
      [ mkStage "emergence" none (some 10) 0.4 1.0 0.08
          [("leaf", 0.7), ("stem", 0.2), ("root", 0.1), ("storage", 0)]
          [("N", 10), ("P", 4), ("K", 15)],
        mkStage "vegetative" none (some 45) 1.05 1.6 0.15
          [("leaf", 0.45), ("stem", 0.35), ("root", 0.20), ("storage", 0)]
          [("N", 50), ("P", 15), ("K", 40)],
        mkStage "flowering" none (some 75) 1.2 1.7 0.08
          [("leaf", 0.25), ("stem", 0.25), ("root", 0.10), ("storage", 0.40)]
          [("N", 30), ("P", 8), ("K", 30)],
        mkStage "grainfill" none (some 105) 1.0 1.4 0.05
          [("leaf", 0.10), ("stem", 0.10), ("root", 0.05), ("storage", 0.75)]
          [("N", 15), ("P", 5), ("K", 20)],
        mkStage "maturity" none none 0.85 0.8 0
          [("leaf", 0), ("stem", 0), ("root", 0), ("storage", 1)]
          [("N", 0), ("P", 0), ("K", 0)] ] }

/-- Crop defaults transcribed from `params.cassava_defaults`. -/
def cassava_defaults : CropParams :=
  { species := "cassava", cultivar := "Local-12m", tb := 12, t_opt := 30,
    lai_max := 4, hi := 0.55,
    stress_sensitivity := [("flower_water", 0.3), ("grainfill_water", 0.3), ("n", 0.4)],
    stages :=
      [ mkStage "incubation" none (some 15) 0.4 0.9 0.09
          [("leaf", 0.6), ("stem", 0.3), ("root", 0.1), ("storage", 0)]
          [("N", 10), ("P", 5), ("K", 15)],
        mkStage "vegetative" none (some 120) 1.0 1.5 0.14
          [("leaf", 0.45), ("stem", 0.35), ("root", 0.20), ("storage", 0)]
          [("N", 60), ("P", 20), ("K", 80)],
        mkStage "bulking" none (some 300) 1.05 1.4 0.08
          [("leaf", 0.20), ("stem", 0.25), ("root", 0.15), ("storage", 0.40)]
          [("N", 30), ("P", 10), ("K", 60)],
        mkStage "maturity" none (some 360) 0.9 1.0 0.02
          [("leaf", 0.05), ("stem", 0.10), ("root", 0.10), ("storage", 0.75)]
          [("N", 10), ("P", 5), ("K", 20)] ] }

/-- Crop defaults transcribed from `params.yams_defaults`. -/
def yams_defaults : CropParams :=
  { species := "yam", cultivar := "White Yam", tb := 12, t_opt := 30,
    lai_max := 4.5, hi := 0.60,
    stress_sensitivity := [("flower_water", 0.4), ("grainfill_water", 0.3), ("n", 0.4)],
    stages :=
      [ mkStage "sprouting" none (some 20) 0.5 1.0 0.08
          [("leaf", 0.6), ("stem", 0.3), ("root", 0.1), ("storage", 0)]
          [("N", 15), ("P", 6), ("K", 20)],
        mkStage "vegetative" none (some 100) 1.0 1.6 0.14
          [("leaf", 0.45), ("stem", 0.35), ("root", 0.20), ("storage", 0)]
          [("N", 70), ("P", 25), ("K", 60)],
        mkStage "tuberization" none (some 240) 1.05 1.4 0.08
          [("leaf", 0.20), ("stem", 0.25), ("root", 0.15), ("storage", 0.40)]
          [("N", 35), ("P", 12), ("K", 50)],
        mkStage "maturity" none (some 300) 0.9 1.0 0.02
          [("leaf", 0.05), ("stem", 0.10), ("root", 0.10), ("storage", 0.75)]
          [("N", 10), ("P", 4), ("K", 15)] ] }

/-- Crop defaults transcribed from `params.tomato_defaults`. -/
def tomato_defaults : CropParams :=
  { species := "tomato", cultivar := "Field-Det", tb := 10, t_opt := 28,
    lai_max := 4.5, hi := 0.65,
    stress_sensitivity := [("flower_water", 0.6), ("grainfill_water", 0.5), ("n", 0.5)],
    stages :=
      [ mkStage "incubation" (some 80) none 0.5 1.2 0.10
          [("leaf", 0.6), ("stem", 0.35), ("root", 0.05), ("storage", 0)]
          [("N", 20), ("P", 8), ("K", 18)],
        mkStage "vegetative" (some 400) none 1.05 1.6 0.16
          [("leaf", 0.45), ("stem", 0.35), ("root", 0.20), ("storage", 0)]
          [("N", 60), ("P", 20), ("K", 60)],
        mkStage "flowering" (some 600) none 1.15 1.7 0.10
          [("leaf", 0.25), ("stem", 0.25), ("root", 0.10), ("storage", 0.40)]
          [("N", 30), ("P", 10), ("K", 40)],
        mkStage "fruitfill" (some 900) none 1.15 1.5 0.06
          [("leaf", 0.10), ("stem", 0.15), ("root", 0.05), ("storage", 0.70)]
          [("N", 20), ("P", 8), ("K", 50)],
        mkStage "maturity" none none 0.9 0.8 0
          [("leaf", 0), ("stem", 0), ("root", 0), ("storage", 1)]
          [("N", 0), ("P", 0), ("K", 0)] ] }

/-- Crop defaults transcribed from `params.pepper_defaults`. -/
def pepper_defaults : CropParams :=
  { species := "pepper", cultivar := "Capsicum-Field", tb := 10, t_opt := 28,
    lai_max := 4, hi := 0.60,
    stress_sensitivity := [("flower_water", 0.55), ("grainfill_water", 0.45), ("n", 0.45)],
    stages :=
      [ mkStage "incubation" (some 90) none 0.5 1.1 0.09
          [("leaf", 0.6), ("stem", 0.35), ("root", 0.05), ("storage", 0)]
          [("N", 18), ("P", 7), ("K", 16)],
        mkStage "vegetative" (some 420) none 1.0 1.5 0.15
          [("leaf", 0.45), ("stem", 0.35), ("root", 0.20), ("storage", 0)]
          [("N", 55), ("P", 18), ("K", 55)],
        mkStage "flowering" (some 620) none 1.1 1.6 0.10
          [("leaf", 0.20), ("stem", 0.25), ("root", 0.10), ("storage", 0.45)]
          [("N", 25), ("P", 9), ("K", 35)],
        mkStage "fruitfill" (some 950) none 1.1 1.4 0.06
          [("leaf", 0.10), ("stem", 0.15), ("root", 0.05), ("storage", 0.70)]
          [("N", 18), ("P", 7), ("K", 40)],
        mkStage "maturity" none none 0.9 0.8 0
          [("leaf", 0), ("stem", 0), ("root", 0), ("storage", 1)]
          [("N", 0), ("P", 0), ("K", 0)] ] }

/-- Crop defaults transcribed from `params.onion_defaults`. -/
def onion_defaults : CropParams :=
  { species := "onion", cultivar := "Bulb-IntermediateDay", tb := 5, t_opt := 22,
    lai_max := 3, hi := 0.75,
    stress_sensitivity := [("flower_water", 0.5), ("grainfill_water", 0.5), ("n", 0.4)],
    stages :=
      [ mkStage "incubation" (some 60) none 0.45 1.0 0.08
          [("leaf", 0.7), ("stem", 0.2), ("root", 0.1), ("storage", 0)]
          [("N", 15), ("P", 6), ("K", 18)],
        mkStage "leaf" (some 300) none 0.95 1.4 0.14
          [("leaf", 0.55), ("stem", 0.25), ("root", 0.20), ("storage", 0)]
          [("N", 50), ("P", 15), ("K", 50)],
        mkStage "bulbinit" (some 450) none 1.05 1.4 0.10
          [("leaf", 0.30), ("stem", 0.10), ("root", 0.10), ("storage", 0.50)]
          [("N", 25), ("P", 8), ("K", 35)],
        mkStage "bulbing" (some 700) none 1.05 1.2 0.06
          [("leaf", 0.10), ("stem", 0.05), ("root", 0.05), ("storage", 0.80)]
          [("N", 15), ("P", 5), ("K", 30)],
        mkStage "maturity" none none 0.85 0.7 0
          [("leaf", 0), ("stem", 0), ("root", 0), ("storage", 1)]
          [("N", 0), ("P", 0), ("K", 0)] ] }

/-- Crop defaults transcribed from `params.garlic_defaults`. -/
def garlic_defaults : CropParams :=
  { species := "garlic", cultivar := "Softneck", tb := 3, t_opt := 20,
    lai_max := 2.8, hi := 0.72,
    stress_sensitivity := [("flower_water", 0.45), ("grainfill_water", 0.45), ("n", 0.35)],
    stages :=
      [ mkStage "incubation" (some 40) none 0.45 0.9 0.07
          [("leaf", 0.7), ("stem", 0.2), ("root", 0.1), ("storage", 0)]
          [("N", 12), ("P", 5), ("K", 15)],
        mkStage "leaf" (some 250) none 0.95 1.3 0.12
          [("leaf", 0.55), ("stem", 0.25), ("root", 0.20), ("storage", 0)]
          [("N", 40), ("P", 12), ("K", 45)],
        mkStage "bulb" (some 520) none 1.0 1.1 0.06
          [("leaf", 0.10), ("stem", 0.05), ("root", 0.05), ("storage", 0.80)]
          [("N", 18), ("P", 6), ("K", 28)],
        mkStage "maturity" none none 0.8 0.7 0
          [("leaf", 0), ("stem", 0), ("root", 0), ("storage", 1)]
          [("N", 0), ("P", 0), ("K", 0)] ] }

/-- Crop defaults transcribed from `params.carrot_defaults`. -/
def carrot_defaults : CropParams :=
  { species := "carrot", cultivar := "Nantes", tb := 4, t_opt := 22,
    lai_max := 3.5, hi := 0.80,
    stress_sensitivity := [("flower_water", 0.4), ("grainfill_water", 0.4), ("n", 0.35)],
    stages :=
      [ mkStage "incubation" (some 50) none 0.45 1.0 0.08
          [("leaf", 0.7), ("stem", 0.2), ("root", 0.1), ("storage", 0)]
          [("N", 10), ("P", 4), ("K", 15)],
        mkStage "vegetative" (some 300) none 0.95 1.4 0.14
          [("leaf", 0.50), ("stem", 0.20), ("root", 0.30), ("storage", 0)]
          [("N", 40), ("P", 12), ("K", 50)],
        mkStage "bulking" (some 650) none 1.0 1.2 0.07
          [("leaf", 0.10), ("stem", 0.10), ("root", 0.10), ("storage", 0.70)]
          [("N", 20), ("P", 6), ("K", 35)],
        mkStage "maturity" none none 0.85 0.7 0
          [("leaf", 0), ("stem", 0), ("root", 0), ("storage", 1)]
          [("N", 0), ("P", 0), ("K", 0)] ] }

/-- Crop defaults transcribed from `params.spinach_defaults`. -/
def spinach_defaults : CropParams :=
  { species := "spinach", cultivar := "AgroSpin-F1", tb := 5, t_opt := 20,
    lai_max := 3, hi := 0.75,
    stress_sensitivity := [("flower_water", 0.5), ("grainfill_water", 0.4), ("n", 0.3)],
    stages :=
      [ mkStage "germination" none (some 10) 0.5 0.9 0.08
          [("leaf", 0.8), ("stem", 0.1), ("root", 0.1), ("storage", 0)]
          [("N", 10), ("P", 4), ("K", 12)],
        mkStage "vegetative" none (some 30) 1.1 1.2 0.14
          [("leaf", 0.70), ("stem", 0.15), ("root", 0.15), ("storage", 0)]
          [("N", 25), ("P", 10), ("K", 30)],
        mkStage "harvest" none (some 45) 0.9 1.0 0.02
          [("leaf", 1), ("stem", 0), ("root", 0), ("storage", 0)]
          [("N", 0), ("P", 0), ("K", 0)] ] }

/-- Crop defaults transcribed from `params.cucumber_defaults`. -/
def cucumber_defaults : CropParams :=
  { species := "cucumber", cultivar := "Field-Cu", tb := 8, t_opt := 30,
    lai_max := 4, hi := 0.70,
    stress_sensitivity := [("flower_water", 0.6), ("grainfill_water", 0.5), ("n", 0.4)],
    stages :=
      [ mkStage "incubation" (some 50) none 0.5 1.0 0.10
          [("leaf", 0.7), ("stem", 0.2), ("root", 0.1), ("storage", 0)]
          [("N", 15), ("P", 6), ("K", 15)],
        mkStage "vegetative" (some 200) none 1.0 1.4 0.14
          [("leaf", 0.55), ("stem", 0.25), ("root", 0.20), ("storage", 0)]
          [("N", 40), ("P", 12), ("K", 40)],
        mkStage "flowering" (some 300) none 1.1 1.6 0.10
          [("leaf", 0.25), ("stem", 0.25), ("root", 0.10), ("storage", 0.40)]
          [("N", 20), ("P", 7), ("K", 25)],
        mkStage "fruitfill" (some 450) none 1.1 1.5 0.06
          [("leaf", 0.10), ("stem", 0.15), ("root", 0.05), ("storage", 0.70)]
          [("N", 15), ("P", 5), ("K", 30)],
        mkStage "maturity" none none 0.9 0.8 0
          [("leaf", 0), ("stem", 0), ("root", 0), ("storage", 1)]
          [("N", 0), ("P", 0), ("K", 0)] ] }

/-- Crop defaults transcribed from `params.broccoli_defaults`. -/
def broccoli_defaults : CropParams :=
  { species := "broccoli", cultivar := "Calabrese", tb := 7, t_opt := 25,
    lai_max := 3.5, hi := 0.65,
    stress_sensitivity := [("flower_water", 0.5), ("grainfill_water", 0.45), ("n", 0.35)],
    stages :=
      [ mkStage "incubation" (some 60) none 0.45 1.0 0.08
          [("leaf", 0.7), ("stem", 0.2), ("root", 0.1), ("storage", 0)]
          [("N", 15), ("P", 6), ("K", 20)],
        mkStage "vegetative" (some 200) none 0.95 1.3 0.14
          [("leaf", 0.50), ("stem", 0.25), ("root", 0.25), ("storage", 0)]
          [("N", 40), ("P", 12), ("K", 40)],
        mkStage "head formation" (some 300) none 1.1 1.5 0.10
          [("leaf", 0.25), ("stem", 0.20), ("root", 0.10), ("storage", 0.45)]
          [("N", 30), ("P", 8), ("K", 30)],
        mkStage "maturity" none none 0.9 0.8 0
          [("leaf", 0), ("stem", 0), ("root", 0), ("storage", 1)]
          [("N", 0), ("P", 0), ("K", 0)] ] }

/-- Crop defaults transcribed from `params.okra_defaults`. -/
def okra_defaults : CropParams :=
  { species := "okra", cultivar := "Local-Okra", tb := 10, t_opt := 32,
    lai_max := 4, hi := 0.65,
    stress_sensitivity := [("flower_water", 0.6), ("grainfill_water", 0.5), ("n", 0.4)],
    stages :=
      [ mkStage "incubation" none (some 10) 0.5 1.0 0.10
          [("leaf", 0.7), ("stem", 0.2), ("root", 0.1), ("storage", 0)]
          [("N", 15), ("P", 5), ("K", 20)],
        mkStage "vegetative" none (some 60) 1.0 1.4 0.14
          [("leaf", 0.55), ("stem", 0.20), ("root", 0.25), ("storage", 0)]
          [("N", 35), ("P", 10), ("K", 35)],
        mkStage "flowering" none (some 100) 1.1 1.5 0.08
          [("leaf", 0.25), ("stem", 0.25), ("root", 0.10), ("storage", 0.40)]
          [("N", 20), ("P", 6), ("K", 25)],
        mkStage "maturity" none none 0.9 0.8 0
          [("leaf", 0), ("stem", 0), ("root", 0), ("storage", 1)]
          [("N", 0), ("P", 0), ("K", 0)] ] }

/-- Crop defaults transcribed from `params.cabbage_defaults`. -/
def cabbage_defaults : CropParams :=
  { species := "cabbage", cultivar := "Hybrid", tb := 7, t_opt := 25,
    lai_max := 3, hi := 0.70,
    stress_sensitivity := [("flower_water", 0.5), ("grainfill_water", 0.45), ("n", 0.35)],
    stages :=
      [ mkStage "incubation" (some 50) none 0.4 0.9 0.08
          [("leaf", 0.7), ("stem", 0.2), ("root", 0.1), ("storage", 0)]
          [("N", 12), ("P", 5), ("K", 18)],
        mkStage "vegetative" (some 180) none 0.95 1.3 0.14
          [("leaf", 0.55), ("stem", 0.20), ("root", 0.25), ("storage", 0)]
          [("N", 30), ("P", 10), ("K", 30)],
        mkStage "heading" (some 300) none 1.0 1.4 0.10
          [("leaf", 0.25), ("stem", 0.20), ("root", 0.10), ("storage", 0.45)]
          [("N", 20), ("P", 7), ("K", 25)],
        mkStage "maturity" none none 0.9 0.8 0
          [("leaf", 0), ("stem", 0), ("root", 0), ("storage", 1)]
          [("N", 0), ("P", 0), ("K", 0)] ] }

/-- Crop defaults transcribed from `params.amaranth_defaults`. -/
def amaranth_defaults : CropParams :=
  { species := "amaranth", cultivar := "Amara", tb := 10, t_opt := 28,
    lai_max := 3.5, hi := 0.75,
    stress_sensitivity := [("flower_water", 0.6), ("grainfill_water", 0.5), ("n", 0.4)],
    stages :=
      [ mkStage "germination" none (some 8) 0.5 0.9 0.08
          [("leaf", 0.8), ("stem", 0.1), ("root", 0.1), ("storage", 0)]
          [("N", 10), ("P", 4), ("K", 12)],
        mkStage "vegetative" none (some 30) 1.0 1.3 0.14
          [("leaf", 0.60), ("stem", 0.15), ("root", 0.25), ("storage", 0)]
          [("N", 25), ("P", 8), ("K", 30)],
        mkStage "maturity" none none 0.9 0.8 0
          [("leaf", 0), ("stem", 0), ("root", 0), ("storage", 1)]
          [("N", 0), ("P", 0), ("K", 0)] ] }

/-- Crop defaults transcribed from `params.mango_defaults`. -/
def mango_defaults : CropParams :=
  { species := "mango", cultivar := "Alphonso", tb := 12, t_opt := 30,
    lai_max := 5, hi := 0.50,
    stress_sensitivity := [("flower_water", 0.7), ("grainfill_water", 0.6), ("n", 0.4)],
    stages :=
      [ mkStage "budbreak" none (some 20) 0.7 1.2 0.03
          [("leaf", 0.5), ("stem", 0.4), ("root", 0.1), ("storage", 0)]
          [("N", 20), ("P", 6), ("K", 25)],
        mkStage "flowering" none (some 50) 0.8 1.3 0.04
          [("leaf", 0.3), ("stem", 0.2), ("root", 0.1), ("storage", 0.4)]
          [("N", 20), ("P", 7), ("K", 25)],
        mkStage "fruitset" none (some 120) 0.95 1.4 0.05
          [("leaf", 0.2), ("stem", 0.15), ("root", 0.05), ("storage", 0.60)]
          [("N", 30), ("P", 10), ("K", 40)],
        mkStage "enlargement" none (some 240) 1.05 1.3 0.05
          [("leaf", 0.10), ("stem", 0.10), ("root", 0.05), ("storage", 0.75)]
          [("N", 25), ("P", 8), ("K", 45)],
        mkStage "maturation" none (some 300) 0.95 1.0 0.02
          [("leaf", 0.05), ("stem", 0.05), ("root", 0.05), ("storage", 0.85)]
          [("N", 10), ("P", 4), ("K", 20)] ] }

/-- Crop defaults transcribed from `params.apple_defaults`. -/
def apple_defaults : CropParams :=
  { species := "apple", cultivar := "Gala", tb := 6, t_opt := 26,
    lai_max := 4.5, hi := 0.60,
    stress_sensitivity := [("flower_water", 0.75), ("grainfill_water", 0.55), ("n", 0.4)],
    stages :=
      [ mkStage "budbreak" none (some 20) 0.7 1.2 0.03
          [("leaf", 0.5), ("stem", 0.4), ("root", 0.1), ("storage", 0)]
          [("N", 22), ("P", 6), ("K", 22)],
        mkStage "flowering" none (some 45) 0.8 1.25 0.04
          [("leaf", 0.3), ("stem", 0.2), ("root", 0.1), ("storage", 0.4)]
          [("N", 18), ("P", 6), ("K", 20)],
        mkStage "fruitset" none (some 110) 0.95 1.35 0.05
          [("leaf", 0.2), ("stem", 0.15), ("root", 0.05), ("storage", 0.60)]
          [("N", 28), ("P", 9), ("K", 35)],
        mkStage "enlargement" none (some 220) 1.0 1.25 0.05
          [("leaf", 0.10), ("stem", 0.10), ("root", 0.05), ("storage", 0.75)]
          [("N", 22), ("P", 7), ("K", 38)],
        mkStage "maturation" none (some 280) 0.9 1.0 0.02
          [("leaf", 0.05), ("stem", 0.05), ("root", 0.05), ("storage", 0.85)]
          [("N", 8), ("P", 3), ("K", 15)] ] }

/-- Crop defaults transcribed from `params.orange_defaults`. -/
def orange_defaults : CropParams :=
  { species := "orange", cultivar := "Valencia", tb := 8, t_opt := 28,
    lai_max := 5, hi := 0.55,
    stress_sensitivity := [("flower_water", 0.7), ("grainfill_water", 0.5), ("n", 0.4)],
    stages :=
      [ mkStage "budbreak" none (some 20) 0.7 1.2 0.03
          [("leaf", 0.5), ("stem", 0.4), ("root", 0.1), ("storage", 0)]
          [("N", 20), ("P", 6), ("K", 25)],
        mkStage "flowering" none (some 50) 0.8 1.3 0.04
          [("leaf", 0.3), ("stem", 0.2), ("root", 0.1), ("storage", 0.4)]
          [("N", 20), ("P", 7), ("K", 25)],
        mkStage "fruitset" none (some 120) 0.95 1.4 0.05
          [("leaf", 0.2), ("stem", 0.15), ("root", 0.05), ("storage", 0.60)]
          [("N", 30), ("P", 10), ("K", 40)],
        mkStage "enlargement" none (some 240) 1.05 1.3 0.05
          [("leaf", 0.10), ("stem", 0.10), ("root", 0.05), ("storage", 0.75)]
          [("N", 25), ("P", 8), ("K", 45)],
        mkStage "maturation" none (some 300) 0.95 1.0 0.02
          [("leaf", 0.05), ("stem", 0.05), ("root", 0.05), ("storage", 0.85)]
          [("N", 10), ("P", 4), ("K", 20)] ] }

/-- Crop defaults transcribed from `params.banana_defaults`. -/
def banana_defaults : CropParams :=
  { species := "banana", cultivar := "Cavendish", tb := 12, t_opt := 30,
    lai_max := 6, hi := 0.50,
    stress_sensitivity := [("flower_water", 0.7), ("grainfill_water", 0.6), ("n", 0.4)],
    stages :=
      [ mkStage "vegetative" none (some 120) 1.0 1.5 0.05
          [("leaf", 0.6), ("stem", 0.3), ("root", 0.1), ("storage", 0)]
          [("N", 30), ("P", 10), ("K", 35)],
        mkStage "fruiting" none (some 240) 1.1 1.4 0.03
          [("leaf", 0.2), ("stem", 0.1), ("root", 0.05), ("storage", 0.65)]
          [("N", 25), ("P", 8), ("K", 30)],
        mkStage "maturity" none none 0.9 0.9 0
          [("leaf", 0), ("stem", 0), ("root", 0), ("storage", 1)]
          [("N", 0), ("P", 0), ("K", 0)] ] }

/-- Crop defaults transcribed from `params.pineapple_defaults`. -/
def pineapple_defaults : CropParams :=
  { species := "pineapple", cultivar := "Smooth Cayenne", tb := 10, t_opt := 28,
    lai_max := 4, hi := 0.55,
    stress_sensitivity := [("flower_water", 0.65), ("grainfill_water", 0.50), ("n", 0.35)],
    stages :=
      [ mkStage "veg_growth" none (some 200) 0.9 1.3 0.04
          [("leaf", 0.5), ("stem", 0.3), ("root", 0.2), ("storage", 0)]
          [("N", 20), ("P", 6), ("K", 25)],
        mkStage "fruit_growth" none (some 300) 1.0 1.2 0.03
          [("leaf", 0.2), ("stem", 0.15), ("root", 0.05), ("storage", 0.75)]
          [("N", 15), ("P", 5), ("K", 20)],
        mkStage "maturity" none none 0.85 0.8 0
          [("leaf", 0), ("stem", 0), ("root", 0), ("storage", 1)]
          [("N", 0), ("P", 0), ("K", 0)] ] }

/-- Crop defaults transcribed from `params.guava_defaults`. -/
def guava_defaults : CropParams :=
  { species := "guava", cultivar := "Tropical", tb := 10, t_opt := 28,
    lai_max := 4.5, hi := 0.60,
    stress_sensitivity := [("flower_water", 0.7), ("grainfill_water", 0.55), ("n", 0.4)],
    stages :=
      [ mkStage "flowering" none (some 30) 0.8 1.3 0.05
          [("leaf", 0.4), ("stem", 0.3), ("root", 0.1), ("storage", 0.2)]
          [("N", 15), ("P", 5), ("K", 20)],
        mkStage "fruit_growth" none (some 90) 0.9 1.4 0.04
          [("leaf", 0.2), ("stem", 0.15), ("root", 0.05), ("storage", 0.60)]
          [("N", 20), ("P", 7), ("K", 25)],
        mkStage "maturity" none none 0.9 0.9 0
          [("leaf", 0), ("stem", 0), ("root", 0), ("storage", 1)]
          [("N", 0), ("P", 0), ("K", 0)] ] }

/-- Crop defaults transcribed from `params.papaya_defaults`. -/
def papaya_defaults : CropParams :=
  { species := "papaya", cultivar := "Solo", tb := 8, t_opt := 28,
    lai_max := 4.5, hi := 0.65,
    stress_sensitivity := [("flower_water", 0.6), ("grainfill_water", 0.5), ("n", 0.4)],
    stages :=
      [ mkStage "vegetative" none (some 100) 0.9 1.3 0.04
          [("leaf", 0.5), ("stem", 0.3), ("root", 0.2), ("storage", 0)]
          [("N", 20), ("P", 6), ("K", 25)],
        mkStage "fruiting" none (some 200) 1.0 1.2 0.03
          [("leaf", 0.2), ("stem", 0.15), ("root", 0.05), ("storage", 0.75)]
          [("N", 15), ("P", 5), ("K", 20)],
        mkStage "maturity" none none 0.85 0.8 0
          [("leaf", 0), ("stem", 0), ("root", 0), ("storage", 1)]
          [("N", 0), ("P", 0), ("K", 0)] ] }

/-- Crop defaults transcribed from `params.lemon_defaults`. -/
def lemon_defaults : CropParams :=
  { species := "lemon", cultivar := "Eureka", tb := 10, t_opt := 28,
    lai_max := 4, hi := 0.60,
    stress_sensitivity := [("flower_water", 0.7), ("grainfill_water", 0.55), ("n", 0.4)],
    stages :=
      [ mkStage "flowering" none (some 30) 0.8 1.3 0.05
          [("leaf", 0.3), ("stem", 0.2), ("root", 0.1), ("storage", 0.4)]
          [("N", 15), ("P", 5), ("K", 20)],
        mkStage "fruit_growth" none (some 90) 0.9 1.4 0.04
          [("leaf", 0.2), ("stem", 0.15), ("root", 0.05), ("storage", 0.60)]
          [("N", 20), ("P", 7), ("K", 25)],
        mkStage "maturity" none none 0.9 0.9 0
          [("leaf", 0), ("stem", 0), ("root", 0), ("storage", 1)]
          [("N", 0), ("P", 0), ("K", 0)] ] }

/-- Crop defaults transcribed from `params.grapes_defaults`. -/
def grapes_defaults : CropParams :=
  { species := "grapes", cultivar := "Vitis", tb := 8, t_opt := 28,
    lai_max := 5, hi := 0.60,
    stress_sensitivity := [("flower_water", 0.7), ("grainfill_water", 0.5), ("n", 0.4)],
    stages :=
      [ mkStage "budburst" none (some 20) 0.7 1.2 0.03
          [("leaf", 0.4), ("stem", 0.4), ("root", 0.1), ("storage", 0.1)]
          [("N", 20), ("P", 6), ("K", 25)],
        mkStage "flowering" none (some 50) 0.8 1.3 0.04
          [("leaf", 0.3), ("stem", 0.2), ("root", 0.1), ("storage", 0.4)]
          [("N", 20), ("P", 7), ("K", 25)],
        mkStage "veraison" none (some 100) 0.95 1.4 0.05
          [("leaf", 0.2), ("stem", 0.15), ("root", 0.05), ("storage", 0.60)]
          [("N", 30), ("P", 10), ("K", 40)],
        mkStage "ripening" none (some 150) 0.9 1.0 0.02
          [("leaf", 0.1), ("stem", 0.05), ("root", 0.05), ("storage", 0.80)]
          [("N", 10), ("P", 4), ("K", 20)],
        mkStage "maturity" none none 0.85 0.8 0
          [("leaf", 0), ("stem", 0), ("root", 0), ("storage", 1)]
          [("N", 0), ("P", 0), ("K", 0)] ] }

/-- Crop defaults transcribed from `params.beans_defaults`. -/
def beans_defaults : CropParams :=
  { species := "beans", cultivar := "Common Bean", tb := 10, t_opt := 28,
    lai_max := 3.5, hi := 0.60,
    stress_sensitivity := [("flower_water", 0.6), ("grainfill_water", 0.5), ("n", 0.4)],
    stages :=
      [ mkStage "germination" none (some 7) 0.5 1.0 0.10
          [("leaf", 0.6), ("stem", 0.2), ("root", 0.2), ("storage", 0)]
          [("N", 10), ("P", 4), ("K", 12)],
        mkStage "vegetative" none (some 30) 1.0 1.4 0.14
          [("leaf", 0.50), ("stem", 0.20), ("root", 0.30), ("storage", 0)]
          [("N", 25), ("P", 8), ("K", 30)],
        mkStage "flowering" none (some 45) 1.1 1.5 0.10
          [("leaf", 0.25), ("stem", 0.20), ("root", 0.10), ("storage", 0.45)]
          [("N", 20), ("P", 6), ("K", 25)],
        mkStage "maturity" none none 0.9 0.8 0
          [("leaf", 0), ("stem", 0), ("root", 0), ("storage", 1)]
          [("N", 0), ("P", 0), ("K", 0)] ] }

/-- Crop defaults transcribed from `params.cowpea_defaults`. -/
def cowpea_defaults : CropParams :=
  { species := "cowpea", cultivar := "Local Cowpea", tb := 10, t_opt := 28,
    lai_max := 3, hi := 0.65,
    stress_sensitivity := [("flower_water", 0.6), ("grainfill_water", 0.5), ("n", 0.45)],
    stages :=
      [ mkStage "germination" none (some 7) 0.5 1.0 0.09
          [("leaf", 0.6), ("stem", 0.2), ("root", 0.2), ("storage", 0)]
          [("N", 10), ("P", 4), ("K", 12)],
        mkStage "vegetative" none (some 25) 1.0 1.3 0.13
          [("leaf", 0.50), ("stem", 0.20), ("root", 0.30), ("storage", 0)]
          [("N", 20), ("P", 7), ("K", 25)],
        mkStage "flowering" none (some 40) 1.1 1.4 0.08
          [("leaf", 0.25), ("stem", 0.20), ("root", 0.10), ("storage", 0.45)]
          [("N", 15), ("P", 6), ("K", 20)],
        mkStage "maturity" none none 0.9 0.8 0
          [("leaf", 0), ("stem", 0), ("root", 0), ("storage", 1)]
          [("N", 0), ("P", 0), ("K", 0)] ] }

/-- Crop defaults transcribed from `params.chickpea_defaults`. -/
def chickpea_defaults : CropParams :=
  { species := "chickpea", cultivar := "Kabuli", tb := 8, t_opt := 28,
    lai_max := 3.5, hi := 0.65,
    stress_sensitivity := [("flower_water", 0.6), ("grainfill_water", 0.5), ("n", 0.45)],
    stages :=
      [ mkStage "germination" none (some 8) 0.5 1.0 0.09
          [("leaf", 0.6), ("stem", 0.2), ("root", 0.2), ("storage", 0)]
          [("N", 10), ("P", 4), ("K", 12)],
        mkStage "vegetative" none (some 30) 1.0 1.3 0.13
          [("leaf", 0.50), ("stem", 0.20), ("root", 0.30), ("storage", 0)]
          [("N", 25), ("P", 8), ("K", 25)],
        mkStage "flowering" none (some 45) 1.1 1.4 0.08
          [("leaf", 0.25), ("stem", 0.20), ("root", 0.10), ("storage", 0.45)]
          [("N", 15), ("P", 6), ("K", 20)],
        mkStage "maturity" none none 0.9 0.8 0
          [("leaf", 0), ("stem", 0), ("root", 0), ("storage", 1)]
          [("N", 0), ("P", 0), ("K", 0)] ] }

/-- Crop defaults transcribed from `params.lentils_defaults`. -/
def lentils_defaults : CropParams :=
  { species := "lentils", cultivar := "Local Lentil", tb := 6, t_opt := 24,
    lai_max := 3, hi := 0.70,
    stress_sensitivity := [("flower_water", 0.5), ("grainfill_water", 0.5), ("n", 0.4)],
    stages :=
      [ mkStage "germination" none (some 7) 0.5 1.0 0.08
          [("leaf", 0.6), ("stem", 0.2), ("root", 0.2), ("storage", 0)]
          [("N", 10), ("P", 4), ("K", 12)],
        mkStage "vegetative" none (some 25) 1.0 1.3 0.13
          [("leaf", 0.50), ("stem", 0.20), ("root", 0.30), ("storage", 0)]
          [("N", 20), ("P", 7), ("K", 25)],
        mkStage "flowering" none (some 35) 1.1 1.4 0.08
          [("leaf", 0.25), ("stem", 0.20), ("root", 0.10), ("storage", 0.45)]
          [("N", 15), ("P", 6), ("K", 20)],
        mkStage "maturity" none none 0.9 0.8 0
          [("leaf", 0), ("stem", 0), ("root", 0), ("storage", 1)]
          [("N", 0), ("P", 0), ("K", 0)] ] }

/-- Crop defaults transcribed from `params.fava_beans_defaults`. -/
def fava_beans_defaults : CropParams :=
  { species := "fava beans", cultivar := "Broad Bean", tb := 8, t_opt := 25,
    lai_max := 3.5, hi := 0.65,
    stress_sensitivity := [("flower_water", 0.6), ("grainfill_water", 0.5), ("n", 0.45)],
    stages :=
      [ mkStage "germination" none (some 8) 0.5 1.0 0.09
          [("leaf", 0.6), ("stem", 0.2), ("root", 0.2), ("storage", 0)]
          [("N", 10), ("P", 4), ("K", 12)],
        mkStage "vegetative" none (some 30) 1.0 1.3 0.13
          [("leaf", 0.50), ("stem", 0.20), ("root", 0.30), ("storage", 0)]
          [("N", 25), ("P", 8), ("K", 25)],
        mkStage "flowering" none (some 45) 1.1 1.4 0.08
          [("leaf", 0.25), ("stem", 0.20), ("root", 0.10), ("storage", 0.45)]
          [("N", 15), ("P", 6), ("K", 20)],
        mkStage "maturity" none none 0.9 0.8 0
          [("leaf", 0), ("stem", 0), ("root", 0), ("storage", 1)]
          [("N", 0), ("P", 0), ("K", 0)] ] }

/-- Crop defaults transcribed from `params.mung_bean_defaults`. -/
def mung_bean_defaults : CropParams :=
  { species := "mung bean", cultivar := "Vermic", tb := 10, t_opt := 30,
    lai_max := 3, hi := 0.70,
    stress_sensitivity := [("flower_water", 0.6), ("grainfill_water", 0.5), ("n", 0.4)],
    stages :=
      [ mkStage "germination" none (some 7) 0.5 1.0 0.10
          [("leaf", 0.6), ("stem", 0.2), ("root", 0.2), ("storage", 0)]
          [("N", 10), ("P", 4), ("K", 12)],
        mkStage "vegetative" none (some 25) 1.0 1.3 0.14
          [("leaf", 0.50), ("stem", 0.20), ("root", 0.30), ("storage", 0)]
          [("N", 20), ("P", 7), ("K", 25)],
        mkStage "flowering" none (some 35) 1.1 1.4 0.08
          [("leaf", 0.25), ("stem", 0.20), ("root", 0.10), ("storage", 0.45)]
          [("N", 15), ("P", 6), ("K", 20)],
        mkStage "maturity" none none 0.9 0.8 0
          [("leaf", 0), ("stem", 0), ("root", 0), ("storage", 1)]
          [("N", 0), ("P", 0), ("K", 0)] ] }

/-- The crop selector's lookup table, `crop_map` in `params.get_crop_defaults`,
in source order. -/
def crop_map : List (String × CropParams) :=
  [ ("maize", maize_defaults), ("rice", rice_defaults), ("sorghum", sorghum_defaults),
    ("cassava", cassava_defaults), ("yams", yams_defaults),
    ("tomato", tomato_defaults), ("pepper", pepper_defaults), ("onion", onion_defaults),
    ("garlic", garlic_defaults), ("carrot", carrot_defaults), ("spinach", spinach_defaults),
    ("cucumber", cucumber_defaults), ("broccoli", broccoli_defaults), ("okra", okra_defaults),
    ("cabbage", cabbage_defaults), ("amaranth", amaranth_defaults),
    ("mango", mango_defaults), ("apple", apple_defaults), ("orange", orange_defaults),
    ("banana", banana_defaults), ("pineapple", pineapple_defaults), ("guava", guava_defaults),
    ("papaya", papaya_defaults), ("lemon", lemon_defaults), ("grapes", grapes_defaults),
    ("beans", beans_defaults), ("cowpea", cowpea_defaults), ("chickpea", chickpea_defaults),
    ("lentils", lentils_defaults), ("fava beans", fava_beans_defaults),
    ("mung bean", mung_bean_defaults) ]

/-- Character-level lowercasing, `str.lower()` (the catalog names are
ASCII). -/
def lower_str (s : String) : String :=
  String.mk (s.data.map Char.toLower)

/-- Whitespace stripping at both ends of a character list, `str.strip()`. -/
def trim_chars (l : List Char) : List Char :=
  ((l.dropWhile Char.isWhitespace).reverse.dropWhile Char.isWhitespace).reverse

/-- Name normalization applied at the top of `params.get_crop_defaults`:
`name.lower().strip()`. -/
def normalize_name (s : String) : String :=
  String.mk (trim_chars (lower_str s).data)

/-- Structured counterpart of the `ValueError` raised by
`params.get_crop_defaults`: the message
`f"Unsupported crop '{name}'. Supported: {valid}"` carries the (normalized)
name and the sorted list of valid crop names. -/
structure CropError where
  name : String
  supported : List String
deriving DecidableEq

/-- Stable insertion into a sorted list of strings. -/
def str_insert (s : String) : List String → List String
  | [] => [s]
  | t :: ts => if t < s then t :: str_insert s ts else s :: t :: ts

/-- Insertion sort on strings, embedding Python's `sorted` on the key list. -/
def str_sort : List String → List String
  | [] => []
  | s :: ss => str_insert s (str_sort ss)

/-- Crop selector, `params.get_crop_defaults`: case-insensitive lookup that
raises an unsupported-crop error listing the valid (sorted) names when the
normalized name is not a key of `crop_map`. -/
def get_crop_defaults (name : String) : Except CropError CropParams :=
  let n := normalize_name name
  match crop_map.find? (fun p => p.1 == n) with
  | some p => Except.ok p.2
  | none => Except.error { name := n, supported := str_sort (crop_map.map Prod.fst) }

/-! Helper lemmas about the string insertion sort used by the crop selector. -/

lemma str_insert_perm (s : String) (l : List String) :
    (str_insert s l).Perm (s :: l) := by
  induction l with
  | nil => simp [str_insert]
  | cons t ts ih =>
    by_cases h : t < s
    · simp only [str_insert, if_pos h]
      exact (ih.cons t).trans (List.Perm.swap s t ts)
    · simp [str_insert, h]

lemma str_sort_perm (l : List String) : (str_sort l).Perm l := by
  induction l with
  | nil => simp [str_sort]
  | cons s ss ih => exact (str_insert_perm s (str_sort ss)).trans (ih.cons s)

lemma str_insert_sorted (s : String) (l : List String)
    (h : l.Pairwise (fun a b => a ≤ b)) :
    (str_insert s l).Pairwise (fun a b => a ≤ b) := by
  induction l with
  | nil => simp [str_insert]
  | cons t ts ih =>
    rcases List.pairwise_cons.mp h with ⟨ht, hts⟩
    by_cases hlt : t < s
    · simp only [str_insert, if_pos hlt]
      refine List.pairwise_cons.mpr ⟨?_, ih hts⟩
      intro x hx
      rcases List.mem_cons.mp ((str_insert_perm s ts).mem_iff.mp hx) with rfl | hx'
      · exact le_of_lt hlt
      · exact ht x hx'
    · simp only [str_insert, if_neg hlt]
      refine List.pairwise_cons.mpr ⟨?_, h⟩
      intro x hx
      rcases List.mem_cons.mp hx with rfl | hx'
      · exact le_of_not_lt hlt
      · exact le_trans (le_of_not_lt hlt) (ht x hx')

lemma str_sort_sorted (l : List String) :
    (str_sort l).Pairwise (fun a b => a ≤ b) := by
  induction l with
  | nil => simp [str_sort]
  | cons s ss ih => exact str_insert_sorted s _ ih

/-- C6: registering a `HarvestTask` whose (field_id, crop) pair already
appears in the task list leaves the list unchanged; a registration with a
new pair appends exactly one task; consequently a second registration of
the same pair is a no-op. -/
theorem add_task_dedup (ts : List HarvestTask) (t t2 : HarvestTask) :
    ((∃ u ∈ ts, u.field_id = t.field_id ∧ u.crop = t.crop) → add_task ts t = ts) ∧
    ((∀ u ∈ ts, ¬(u.field_id = t.field_id ∧ u.crop = t.crop)) →
        add_task ts t = ts ++ [t]) ∧
    (t2.field_id = t.field_id → t2.crop = t.crop →
        add_task (add_task ts t) t2 = add_task ts t) := by
  induction ts with
  | nil =>
    refine ⟨fun h => absurd h (by simp), fun _ => rfl, fun hf hc => ?_⟩
    simp [add_task, hf, hc]
  | cons u us ih =>
    by_cases h : (u.field_id == t.field_id && u.crop == t.crop) = true
    · have hf : u.field_id = t.field_id := by
        have := (Bool.and_eq_true _ _).mp h
        exact beq_iff_eq.mp this.1
      have hc : u.crop = t.crop := by
        have := (Bool.and_eq_true _ _).mp h
        exact beq_iff_eq.mp this.2
      refine ⟨fun _ => by simp [add_task, h], fun hall => ?_, fun h2f h2c => ?_⟩
      · exact absurd ⟨hf, hc⟩ (hall u (List.mem_cons_self u us))
      · have hs : add_task (u :: us) t = u :: us := by simp [add_task, h]
        rw [hs]
        simp [add_task, hf.trans h2f.symm, hc.trans h2c.symm]
    · have hs : add_task (u :: us) t = u :: add_task us t := by
        simp only [add_task, if_neg h]
      refine ⟨fun hex => ?_, fun hall => ?_, fun h2f h2c => ?_⟩
      · rcases hex with ⟨v, hv, hvf, hvc⟩
        rcases List.mem_cons.mp hv with rfl | hv'
        · exact absurd (by simp [hvf, hvc]) h
        · rw [hs, (ih.1 ⟨v, hv', hvf, hvc⟩)]
      · rw [hs, ih.2.1 (fun v hv => hall v (List.mem_cons_of_mem u hv))]
        rfl
      · have h2 : (u.field_id == t2.field_id && u.crop == t2.crop) = false := by
          rw [h2f, h2c]
          exact Bool.not_eq_true _ ▸ (by simpa using h)
        rw [hs]
        simp [add_task, h2, ih.2.2 h2f h2c]

/-- Concrete task used by witnesses. -/
def t_ex : HarvestTask :=
  { field_id := "F1", crop := "maize", planned_date := "2025-09-01",
    expected_yield_t_ha := 2, maturity_ratio := 1, ripe_color := "#e53935",
    actual_yield_t_ha := none, completed := false }

/-- Witness for C6 at a concrete task: a fresh pair appends, a repeated pair
is a no-op. -/
theorem add_task_dedup_witness :
    add_task [] t_ex = [] ++ [t_ex] ∧
    add_task (add_task [] t_ex) t_ex = add_task [] t_ex :=
  ⟨(add_task_dedup [] t_ex t_ex).2.1 (by simp),
   (add_task_dedup [] t_ex t_ex).2.2 rfl rfl⟩

/-- C7: the crop lookup depends only on the lowercased/stripped name (so it
is case-insensitive); a name whose normalization is not a catalog key
fails with an unsupported-crop error carrying that name and the sorted
list of valid names (never a default `CropParams`); a catalog name
succeeds; and the advertised list is exactly the catalog's keys, sorted. -/
theorem get_crop_defaults_spec :
    (∀ s1 s2 : String, normalize_name s1 = normalize_name s2 →
        get_crop_defaults s1 = get_crop_defaults s2) ∧
    (∀ s : String, normalize_name s ∉ crop_map.map Prod.fst →
        get_crop_defaults s =
          Except.error { name := normalize_name s,
                         supported := str_sort (crop_map.map Prod.fst) }) ∧
    (∀ s : String, normalize_name s ∈ crop_map.map Prod.fst →
        ∃ c : CropParams, get_crop_defaults s = Except.ok c) ∧
    (str_sort (crop_map.map Prod.fst)).Perm (crop_map.map Prod.fst) ∧
    (str_sort (crop_map.map Prod.fst)).Pairwise (fun a b => a ≤ b) := by
  refine ⟨?_, ?_, ?_, str_sort_perm _, str_sort_sorted _⟩
  · intro s1 s2 h
    simp only [get_crop_defaults, h]
  · intro s h
    have hnone : crop_map.find? (fun p => p.1 == normalize_name s) = none := by
      apply List.find?_eq_none.mpr
      intro p hp hbeq
      exact h (beq_iff_eq.mp hbeq ▸ List.mem_map_of_mem Prod.fst hp)
    simp [get_crop_defaults, hnone]
  · intro s h
    rcases List.mem_map.mp h with ⟨p, hp, hfst⟩
    cases hfind : crop_map.find? (fun q => q.1 == normalize_name s) with
    | none => exact absurd (by simp [hfst]) (List.find?_eq_none.mp hfind p hp)
    | some q => exact ⟨q.2, by simp [get_crop_defaults, hfind]⟩

/-- Witness for C7: a mixed-case padded name resolves like the lowercase
name, and an out-of-catalog name produces the structured unsupported-crop
error. -/
theorem get_crop_defaults_spec_witness :
    get_crop_defaults " MaIzE " = get_crop_defaults "maize" ∧
    get_crop_defaults "dragonfruit" =
      Except.error { name := "dragonfruit",
                     supported := str_sort (crop_map.map Prod.fst) } := by
  constructor
  · exact get_crop_defaults_spec.1 " MaIzE " "maize" (by decide)
  · have h := get_crop_defaults_spec.2.1 "dragonfruit" (by decide)
    have hn : normalize_name "dragonfruit" = "dragonfruit" := by decide
    rw [hn] at h
    exact h

/-- Total expected yield of a task list (t/ha). -/
def ysum (l : List HarvestTask) : ℚ :=
  (l.map (fun t => t.expected_yield_t_ha)).sum

lemma insert_by_date_perm (t : HarvestTask) (l : List HarvestTask) :
    (insert_by_date t l).Perm (t :: l) := by
  induction l with
  | nil => simp [insert_by_date]
  | cons u us ih =>
    by_cases h : u.planned_date < t.planned_date
    · simp only [insert_by_date, if_pos h]
      exact (ih.cons u).trans (List.Perm.swap t u us)
    · simp [insert_by_date, h]

lemma sort_tasks_perm (l : List HarvestTask) : (sort_tasks l).Perm l := by
  induction l with
  | nil => simp [sort_tasks]
  | cons t ts ih => exact (insert_by_date_perm t (sort_tasks ts)).trans (ih.cons t)

lemma insert_by_date_sorted (t : HarvestTask) (l : List HarvestTask)
    (h : l.Pairwise (fun a b => a.planned_date ≤ b.planned_date)) :
    (insert_by_date t l).Pairwise (fun a b => a.planned_date ≤ b.planned_date) := by
  induction l with
  | nil => simp [insert_by_date]
  | cons u us ih =>
    rcases List.pairwise_cons.mp h with ⟨hu, hus⟩
    by_cases hlt : u.planned_date < t.planned_date
    · simp only [insert_by_date, if_pos hlt]
      refine List.pairwise_cons.mpr ⟨?_, ih hus⟩
      intro x hx
      rcases List.mem_cons.mp ((insert_by_date_perm t us).mem_iff.mp hx) with rfl | hx'
      · exact le_of_lt hlt
      · exact hu x hx'
    · simp only [insert_by_date, if_neg hlt]
      refine List.pairwise_cons.mpr ⟨?_, h⟩
      intro x hx
      rcases List.mem_cons.mp hx with rfl | hx'
      · exact le_of_not_lt hlt
      · exact le_trans (le_of_not_lt hlt) (hu x hx')

lemma sort_tasks_sorted (l : List HarvestTask) :
    (sort_tasks l).Pairwise (fun a b => a.planned_date ≤ b.planned_date) := by
  induction l with
  | nil => simp [sort_tasks]
  | cons t ts ih => exact insert_by_date_sorted t _ ih

lemma insert_by_date_cons_lt (t u : HarvestTask) (us : List HarvestTask)
    (h : u.planned_date < t.planned_date) :
    insert_by_date t (u :: us) = u :: insert_by_date t us := by
  simp only [insert_by_date, if_pos h]

lemma insert_by_date_cons_ge (t u : HarvestTask) (us : List HarvestTask)
    (h : ¬ u.planned_date < t.planned_date) :
    insert_by_date t (u :: us) = t :: u :: us := by
  simp only [insert_by_date, if_neg h]

lemma sort_tasks_cons (t : HarvestTask) (ts : List HarvestTask) :
    sort_tasks (t :: ts) = insert_by_date t (sort_tasks ts) := rfl

lemma insert_filter_ne (t : HarvestTask) (l : List HarvestTask) (d : String)
    (h : t.planned_date ≠ d) :
    (insert_by_date t l).filter (fun u => u.planned_date == d) =
      l.filter (fun u => u.planned_date == d) := by
  induction l with
  | nil => simp [insert_by_date, List.filter_cons, beq_eq_false_iff_ne.mpr h]
  | cons u us ih =>
    by_cases hu : u.planned_date < t.planned_date
    · rw [insert_by_date_cons_lt t u us hu, List.filter_cons, List.filter_cons, ih]
    · rw [insert_by_date_cons_ge t u us hu, List.filter_cons]
      simp [beq_eq_false_iff_ne.mpr h]

lemma insert_filter_eq (t : HarvestTask) (l : List HarvestTask) (d : String)
    (h : t.planned_date = d) :
    (insert_by_date t l).filter (fun u => u.planned_date == d) =
      t :: l.filter (fun u => u.planned_date == d) := by
  induction l with
  | nil => simp [insert_by_date, List.filter_cons, h]
  | cons u us ih =>
    by_cases hu : u.planned_date < t.planned_date
    · have hud : (u.planned_date == d) = false := by
        refine beq_eq_false_iff_ne.mpr fun he => ?_
        rw [he, ← h] at hu
        exact lt_irrefl _ hu
      rw [insert_by_date_cons_lt t u us hu, List.filter_cons, ih, List.filter_cons]
      simp [hud]
    · rw [insert_by_date_cons_ge t u us hu, List.filter_cons]
      simp [h]

lemma sort_tasks_filter (l : List HarvestTask) (d : String) :
    (sort_tasks l).filter (fun u => u.planned_date == d) =
      l.filter (fun u => u.planned_date == d) := by
  induction l with
  | nil => rfl
  | cons t ts ih =>
    by_cases h : t.planned_date = d
    · rw [sort_tasks_cons, insert_filter_eq t _ d h, ih, List.filter_cons,
        if_pos (by simp [h])]
    · rw [sort_tasks_cons, insert_filter_ne t _ d h, ih, List.filter_cons,
        if_neg (by simp [h])]

lemma plan_loop_spec (cap : ℚ) (l : List HarvestTask) :
    ∃ k, k ≤ l.length ∧ (l ≠ [] → 1 ≤ k) ∧
      plan_loop cap l = (l.take k).map mk_plan_item ∧
      (∀ j, 0 < j → j < k → 0 < cap - ysum (l.take j)) ∧
      (k = l.length ∨ cap - ysum (l.take k) ≤ 0) := by
  induction l generalizing cap with
  | nil => exact ⟨0, by simp, by simp, rfl, by omega, Or.inl rfl⟩
  | cons t ts ih =>
    by_cases h : cap - t.expected_yield_t_ha ≤ 0
    · refine ⟨1, by simp, fun _ => le_refl 1, ?_, ?_, Or.inr ?_⟩
      · simp only [plan_loop, if_pos h, List.take_succ_cons, List.take_zero,
          List.map_cons, List.map_nil]
      · intro j hj hjk; omega
      · simpa [ysum] using h
    · obtain ⟨k, hkle, hkne, heq, hpre, hend⟩ := ih (cap - t.expected_yield_t_ha)
      refine ⟨k + 1, by simpa using hkle, fun _ => by omega, ?_, ?_, ?_⟩
      · simp only [plan_loop, if_neg h, heq, List.take_succ_cons, List.map_cons]
      · intro j hj hjk
        cases j with
        | zero => omega
        | succ j' =>
          rcases Nat.eq_zero_or_pos j' with hz | hpos
          · subst hz
            simp only [List.take_succ_cons, List.take_zero, ysum, List.map_cons,
              List.map_nil, List.sum_cons, List.sum_nil]
            linarith [lt_of_not_le h]
          · have hj' := hpre j' hpos (by omega)
            have harr : cap - ysum ((t :: ts).take (j' + 1)) =
                (cap - t.expected_yield_t_ha) - ysum (ts.take j') := by
              simp only [List.take_succ_cons, ysum, List.map_cons, List.sum_cons]
              ring
            rw [harr]
            exact hj'
      · rcases hend with hl | hr
        · exact Or.inl (by simp [hl])
        · refine Or.inr ?_
          have harr : cap - ysum ((t :: ts).take (k + 1)) =
              (cap - t.expected_yield_t_ha) - ysum (ts.take k) := by
            simp only [List.take_succ_cons, ysum, List.map_cons, List.sum_cons]
            ring
          rw [harr]
          exact hr

/-- C5 (amended to non-negative storage capacity): the plan works on the
tasks sorted by planned date (ascending, stable: each date class keeps its
registration order, and the sorted list is a permutation of the input);
the plan is the `mk_plan_item` image of a prefix of the sorted list, where
remaining capacity stays positive strictly before the last included task,
and the prefix is everything or ends at the task driving the remaining
capacity to zero or below; the total planned yield then exceeds the
capacity by at most the yield of the last included task; and each planned
item's grade is "A" exactly when its maturity ratio is at least 0.9, else
"B". -/
theorem plan_schedule_spec (tasks : List HarvestTask) (cap : ℚ) (hcap : 0 ≤ cap) :
    (sort_tasks tasks).Pairwise (fun a b => a.planned_date ≤ b.planned_date) ∧
    (sort_tasks tasks).Perm tasks ∧
    (∀ d : String, (sort_tasks tasks).filter (fun u => u.planned_date == d) =
        tasks.filter (fun u => u.planned_date == d)) ∧
    (∀ item ∈ plan_schedule tasks cap,
        item.grade = if 0.9 ≤ item.maturity_ratio then "A" else "B") ∧
    ∃ k, k ≤ (sort_tasks tasks).length ∧ (sort_tasks tasks ≠ [] → 1 ≤ k) ∧
      plan_schedule tasks cap = ((sort_tasks tasks).take k).map mk_plan_item ∧
      (∀ j, 0 < j → j < k → 0 < cap - ysum ((sort_tasks tasks).take j)) ∧
      (k = (sort_tasks tasks).length ∨ cap - ysum ((sort_tasks tasks).take k) ≤ 0) ∧
      (∀ tl, ((sort_tasks tasks).take k).getLast? = some tl →
          ysum ((sort_tasks tasks).take k) ≤ cap + tl.expected_yield_t_ha) := by
  obtain ⟨k, hkle, hkne, heq, hpre, hend⟩ := plan_loop_spec cap (sort_tasks tasks)
  refine ⟨sort_tasks_sorted tasks, sort_tasks_perm tasks, sort_tasks_filter tasks,
    ?_, k, hkle, hkne, heq, hpre, hend, ?_⟩
  · intro item hitem
    rw [plan_schedule, heq] at hitem
    rcases List.mem_map.mp hitem with ⟨u, _, rfl⟩
    simp only [mk_plan_item, task_ready]
    by_cases hm : (0.9 : ℚ) ≤ u.maturity_ratio
    · simp [hm]
    · simp [hm]
  · intro tl htl
    cases k with
    | zero => simp at htl
    | succ j =>
      have hjlen : j < (sort_tasks tasks).length := Nat.lt_of_succ_le hkle
      have htake : (sort_tasks tasks).take (j + 1) =
          (sort_tasks tasks).take j ++ [(sort_tasks tasks).get ⟨j, hjlen⟩] := by
        rw [List.take_succ]
        congr 1
        simp [List.getElem?_eq_getElem hjlen, List.get_eq_getElem]
      have htl' : tl = (sort_tasks tasks).get ⟨j, hjlen⟩ := by
        rw [htake, List.getLast?_concat] at htl
        exact (Option.some_inj.mp htl).symm
      have hsum : ysum ((sort_tasks tasks).take (j + 1)) =
          ysum ((sort_tasks tasks).take j) + tl.expected_yield_t_ha := by
        rw [htake, htl']
        simp only [ysum, List.map_append, List.sum_append, List.map_cons,
          List.map_nil, List.sum_cons, List.sum_nil, add_zero]
      have hprefix : ysum ((sort_tasks tasks).take j) ≤ cap := by
        rcases Nat.eq_zero_or_pos j with hz | hpos
        · subst hz; simpa [ysum] using hcap
        · exact le_of_lt (by linarith [hpre j hpos (Nat.lt_succ_self j)])
      linarith [hsum, hprefix]

/-- C5 counterexample to the unrestricted claim: with a negative storage
capacity (-1) and a single task of expected yield 2 the task is still
included (the loop only checks capacity after appending), so the total
planned yield exceeds the capacity by 3, more than the yield (2) of the
last included task. -/
theorem plan_schedule_capacity_counterexample :
    plan_schedule [t_ex] (-1) = [mk_plan_item t_ex] ∧
    ¬ (ysum [t_ex] ≤ (-1 : ℚ) + t_ex.expected_yield_t_ha) := by
  constructor
  · with_unfolding_all decide
  · simp only [ysum, t_ex, List.map_cons, List.map_nil, List.sum_cons, List.sum_nil]
    norm_num

/-- Witness for C5 at a concrete list and capacity 100. -/
theorem plan_schedule_spec_witness :
    (sort_tasks [t_ex]).Perm [t_ex] ∧
    (∀ item ∈ plan_schedule [t_ex] 100,
        item.grade = if 0.9 ≤ item.maturity_ratio then "A" else "B") :=
  ⟨(plan_schedule_spec [t_ex] 100 (by norm_num)).2.1,
   (plan_schedule_spec [t_ex] 100 (by norm_num)).2.2.2.1⟩

/-! Shape and bound lemmas for the water balance, nutrient tracker, stage
advance, and single-day step. -/

lemma rootzone_capacity_nonneg (soil : SoilProfile) : 0 ≤ rootzone_capacity soil := by
  unfold rootzone_capacity
  refine List.sum_nonneg fun x hx => ?_
  rcases List.mem_map.mp hx with ⟨ly, _, rfl⟩
  exact le_max_left 0 ly.fc

lemma wb_runoff_net (soil : SoilProfile) (i : ℚ) (hi : 0 ≤ i)
    (hth : 0 ≤ soil.runoff_threshold_mm) : 0 ≤ i - wb_runoff soil i := by
  unfold wb_runoff
  rcases le_or_lt i soil.runoff_threshold_mm with h | h
  · rw [max_eq_left (by linarith)]
    linarith
  · rw [max_eq_right (by linarith)]
    linarith

lemma wb_w2_nonneg (st : FieldState) (soil : SoilProfile) (i : ℚ)
    (hw : 0 ≤ st.soil_water_mm) (hi : 0 ≤ i) (hth : 0 ≤ soil.runoff_threshold_mm) :
    0 ≤ wb_w2 st soil i :=
  le_min (by linarith [wb_runoff_net soil i hi hth]) (rootzone_capacity_nonneg soil)

lemma wb_w2_le_cap (st : FieldState) (soil : SoilProfile) (i : ℚ) :
    wb_w2 st soil i ≤ rootzone_capacity soil :=
  min_le_right _ _

lemma wb_transp_pot_nonneg (st : FieldState) (e : ℚ) (hl : 0 ≤ st.lai) (he : 0 ≤ e) :
    0 ≤ wb_transp_pot st e :=
  mul_nonneg he (le_min (by norm_num) (div_nonneg hl (by norm_num)))

lemma wb_transp_act_nonneg (st : FieldState) (soil : SoilProfile) (i e : ℚ)
    (hl : 0 ≤ st.lai) (he : 0 ≤ e) (hw : 0 ≤ st.soil_water_mm) (hi : 0 ≤ i)
    (hth : 0 ≤ soil.runoff_threshold_mm) :
    0 ≤ wb_transp_act st soil i e :=
  le_min (wb_transp_pot_nonneg st e hl he) (wb_w2_nonneg st soil i hw hi hth)

lemma wb_w3_nonneg (st : FieldState) (soil : SoilProfile) (i e : ℚ) :
    0 ≤ wb_w3 st soil i e :=
  sub_nonneg.mpr (min_le_right _ _)

lemma wb_soil_evap_nonneg (st : FieldState) (soil : SoilProfile) (i e : ℚ) :
    0 ≤ wb_soil_evap st soil i e :=
  le_min
    (mul_nonneg (le_max_left _ _) (by linarith [min_le_left 1 (st.lai / 3)]))
    (wb_w3_nonneg st soil i e)

lemma wb_w4_nonneg (st : FieldState) (soil : SoilProfile) (i e : ℚ) :
    0 ≤ wb_w4 st soil i e :=
  sub_nonneg.mpr (min_le_right _ _)

lemma wb_w4_le_cap (st : FieldState) (soil : SoilProfile) (i e : ℚ)
    (hw : 0 ≤ st.soil_water_mm) (hl : 0 ≤ st.lai) (hi : 0 ≤ i)
    (hth : 0 ≤ soil.runoff_threshold_mm) (he : 0 ≤ e) :
    wb_w4 st soil i e ≤ rootzone_capacity soil := by
  have h1 : wb_w4 st soil i e ≤ wb_w3 st soil i e := by
    have := wb_soil_evap_nonneg st soil i e
    unfold wb_w4
    linarith
  have h2 : wb_w3 st soil i e ≤ wb_w2 st soil i := by
    have := wb_transp_act_nonneg st soil i e hl he hw hi hth
    unfold wb_w3
    linarith
  exact h1.trans (h2.trans (wb_w2_le_cap st soil i))

lemma wb_stress_bounds (st : FieldState) (soil : SoilProfile) (i e : ℚ) :
    0.001 ≤ wb_stress st soil i e ∧ wb_stress st soil i e ≤ 1 :=
  ⟨le_max_left _ _, max_le (by norm_num) (min_le_left _ _)⟩

lemma water_balance_proj (st : FieldState) (soil : SoilProfile) (i e : ℚ) :
    (water_balance st soil i e).lai = st.lai ∧
    (water_balance st soil i e).stage_index = st.stage_index ∧
    (water_balance st soil i e).gdd_accum = st.gdd_accum ∧
    (water_balance st soil i e).dap = st.dap ∧
    (water_balance st soil i e).biomass_dm_kg_ha = st.biomass_dm_kg_ha ∧
    (water_balance st soil i e).stress_n = st.stress_n ∧
    (water_balance st soil i e).notes = st.notes ∧
    (water_balance st soil i e).date = st.date ∧
    (water_balance st soil i e).soil_water_mm = wb_w4 st soil i e ∧
    (water_balance st soil i e).stress_w = wb_stress st soil i e :=
  ⟨rfl, rfl, rfl, rfl, rfl, rfl, rfl, rfl, rfl, rfl⟩

lemma uptake_step_shape (n : String) (st : FieldState) (kv : String × ℚ) :
    ∃ a b c d, uptake_step n st kv =
      { st with n_stock_kg_ha := a, p_stock_kg_ha := b, k_stock_kg_ha := c,
                notes := d } := by
  simp only [uptake_step, stock_set]
  split_ifs <;> exact ⟨_, _, _, _, rfl⟩

lemma uptake_foldl_shape (n : String) (l : List (String × ℚ)) (st : FieldState) :
    ∃ a b c d, l.foldl (uptake_step n) st =
      { st with n_stock_kg_ha := a, p_stock_kg_ha := b, k_stock_kg_ha := c,
                notes := d } := by
  induction l generalizing st with
  | nil => exact ⟨st.n_stock_kg_ha, st.p_stock_kg_ha, st.k_stock_kg_ha, st.notes, rfl⟩
  | cons kv kvs ih =>
    obtain ⟨a, b, c, d, h1⟩ := uptake_step_shape n st kv
    obtain ⟨a2, b2, c2, d2, h2⟩ := ih
      { st with n_stock_kg_ha := a, p_stock_kg_ha := b, k_stock_kg_ha := c, notes := d }
    rw [List.foldl_cons, h1, h2]
    exact ⟨a2, b2, c2, d2, rfl⟩

lemma nutrients_update_proj (st : FieldState) (stage : StageParams) (c : CropParams) :
    (nutrients_update st stage c).lai = st.lai ∧
    (nutrients_update st stage c).soil_water_mm = st.soil_water_mm ∧
    (nutrients_update st stage c).stress_w = st.stress_w ∧
    (nutrients_update st stage c).stage_index = st.stage_index ∧
    (nutrients_update st stage c).gdd_accum = st.gdd_accum ∧
    (nutrients_update st stage c).dap = st.dap ∧
    (nutrients_update st stage c).biomass_dm_kg_ha = st.biomass_dm_kg_ha ∧
    (nutrients_update st stage c).date = st.date := by
  obtain ⟨a, b, c2, d, h⟩ := uptake_foldl_shape stage.name stage.nuptake_target st
  unfold nutrients_update
  rw [h]
  exact ⟨rfl, rfl, rfl, rfl, rfl, rfl, rfl, rfl⟩

lemma nu_ratio_le_one (st1 : FieldState) (stage : StageParams) (c : CropParams) :
    nu_ratio st1 stage c ≤ 1 := by
  simp only [nu_ratio]
  split
  · exact min_le_left _ _
  · exact le_refl 1

lemma nutrients_stress_n_bounds (st : FieldState) (stage : StageParams) (c : CropParams) :
    0.4 ≤ (nutrients_update st stage c).stress_n ∧
    (nutrients_update st stage c).stress_n ≤ 1 := by
  unfold nutrients_update
  exact ⟨le_max_left _ _, max_le (by norm_num) (nu_ratio_le_one _ _ _)⟩

lemma advance_stage_shape (c : CropParams) (st : FieldState) :
    advance_stage c st = st ∨
      advance_stage c st = { st with stage_index := st.stage_index + 1 } := by
  simp only [advance_stage]
  split
  · exact Or.inr rfl
  · exact Or.inl rfl

lemma advance_stage_index (c : CropParams) (st : FieldState) :
    st.stage_index ≤ (advance_stage c st).stage_index ∧
    (advance_stage c st).stage_index ≤ st.stage_index + 1 ∧
    (st.stage_index < c.stages.length →
      (advance_stage c st).stage_index < c.stages.length) := by
  simp only [advance_stage]
  split
  case isTrue h =>
    have hlt : st.stage_index < c.stages.length - 1 :=
      of_decide_eq_true (Bool.and_eq_true _ _ |>.mp h).2
    refine ⟨by simp, by simp, fun _ => ?_⟩
    simp only
    omega
  case isFalse h => exact ⟨le_refl _, by omega, fun hh => hh⟩

lemma dc_st3_proj (f : FieldConfig) (stage : StageParams) (st : FieldState) (w : WeatherDay) :
    (dc_st3 f stage st w).lai = st.lai ∧
    (dc_st3 f stage st w).soil_water_mm =
      wb_w4 (dc_st1 f st w) f.soil (dc_inflow f w) (dc_etc stage w) ∧
    (dc_st3 f stage st w).stress_w =
      wb_stress (dc_st1 f st w) f.soil (dc_inflow f w) (dc_etc stage w) ∧
    (dc_st3 f stage st w).stage_index = st.stage_index ∧
    (dc_st3 f stage st w).gdd_accum = st.gdd_accum + gdd_day w.tmin w.tmax f.crop.tb ∧
    (dc_st3 f stage st w).dap = st.dap + 1 ∧
    (dc_st3 f stage st w).biomass_dm_kg_ha = st.biomass_dm_kg_ha ∧
    (dc_st3 f stage st w).date = w.date := by
  obtain ⟨hn1, hn2, hn3, hn4, hn5, hn6, hn7, hn8⟩ :=
    nutrients_update_proj (dc_st2 f stage st w) stage f.crop
  obtain ⟨hw1, hw2, hw3, hw4, hw5, hw6, hw7, hw8, hw9, hw10⟩ :=
    water_balance_proj (dc_st1 f st w) f.soil (dc_inflow f w) (dc_etc stage w)
  exact ⟨hn1.trans hw1, hn2.trans hw9, hn3.trans hw10, hn4.trans hw2,
    hn5.trans hw3, hn6.trans hw4, hn7.trans hw5, hn8.trans hw8⟩

lemma day_core_proj (E : ℚ → ℚ) (f : FieldConfig) (stage : StageParams) (st : FieldState)
    (w : WeatherDay) :
    (day_core E f stage st w).lai =
      min f.crop.lai_max (st.lai + dc_lai_gain f stage st w) ∧
    (day_core E f stage st w).soil_water_mm =
      wb_w4 (dc_st1 f st w) f.soil (dc_inflow f w) (dc_etc stage w) ∧
    (day_core E f stage st w).stress_w =
      wb_stress (dc_st1 f st w) f.soil (dc_inflow f w) (dc_etc stage w) ∧
    (day_core E f stage st w).stress_n = (dc_st3 f stage st w).stress_n ∧
    (day_core E f stage st w).stage_index = st.stage_index ∧
    (day_core E f stage st w).gdd_accum = st.gdd_accum + gdd_day w.tmin w.tmax f.crop.tb ∧
    (day_core E f stage st w).dap = st.dap + 1 ∧
    (day_core E f stage st w).biomass_dm_kg_ha =
      st.biomass_dm_kg_ha + dc_dB E f stage st w ∧
    (day_core E f stage st w).date = w.date := by
  obtain ⟨h1, h2, h3, h4, h5, h6, h7, h8⟩ := dc_st3_proj f stage st w
  refine ⟨?_, h2, h3, rfl, h4, h5, h6, ?_, h8⟩
  · show (dc_st4 f stage st w).lai = _
    unfold dc_st4
    rw [show ({ dc_st3 f stage st w with
        lai := min f.crop.lai_max ((dc_st3 f stage st w).lai + dc_lai_gain f stage st w) } :
        FieldState).lai =
      min f.crop.lai_max ((dc_st3 f stage st w).lai + dc_lai_gain f stage st w) from rfl, h1]
  · show (dc_st4 f stage st w).biomass_dm_kg_ha + dc_dB E f stage st w = _
    unfold dc_st4
    rw [show ({ dc_st3 f stage st w with
        lai := min f.crop.lai_max ((dc_st3 f stage st w).lai + dc_lai_gain f stage st w) } :
        FieldState).biomass_dm_kg_ha = (dc_st3 f stage st w).biomass_dm_kg_ha from rfl, h7]

lemma dc_etc_nonneg (stage : StageParams) (w : WeatherDay) : 0 ≤ dc_etc stage w :=
  le_max_left 0 _

lemma dc_lai_gain_nonneg (f : FieldConfig) (stage : StageParams) (st : FieldState)
    (w : WeatherDay) (hlg : 0 ≤ stage.lai_gain) (hl0 : 0 ≤ st.lai)
    (hlc : st.lai ≤ f.crop.lai_max) (hlm : 0.05 ≤ f.crop.lai_max) :
    0 ≤ dc_lai_gain f stage st w := by
  obtain ⟨h1, _, h3, _, _, _, _, _⟩ := dc_st3_proj f stage st w
  have hsn := (nutrients_stress_n_bounds (dc_st2 f stage st w) stage f.crop).1
  have hsw := (wb_stress_bounds (dc_st1 f st w) f.soil (dc_inflow f w) (dc_etc stage w)).1
  have hM : (0 : ℚ) < f.crop.lai_max := by linarith
  have hdl : st.lai / f.crop.lai_max ≤ 1 := (div_le_one hM).mpr hlc
  unfold dc_lai_gain
  rw [h1, h3]
  have hsn' : 0 ≤ (dc_st3 f stage st w).stress_n := by
    have : (dc_st3 f stage st w).stress_n =
        (nutrients_update (dc_st2 f stage st w) stage f.crop).stress_n := rfl
    rw [this]
    linarith
  exact mul_nonneg
    (mul_nonneg (mul_nonneg (mul_nonneg hlg hl0) (by linarith)) (by linarith)) hsn'

lemma step_day_proj_index (E : ℚ → ℚ) (f : FieldConfig) (st : FieldState) (w : WeatherDay) :
    st.stage_index ≤ (step_day E f st w).stage_index ∧
    (step_day E f st w).stage_index ≤ st.stage_index + 1 ∧
    (st.stage_index < f.crop.stages.length →
      (step_day E f st w).stage_index < f.crop.stages.length) := by
  obtain ⟨ha1, ha2, ha3⟩ :=
    advance_stage_index f.crop (day_core E f (stage_at f.crop st.stage_index) st w)
  have hdc : (day_core E f (stage_at f.crop st.stage_index) st w).stage_index =
      st.stage_index :=
    (day_core_proj E f (stage_at f.crop st.stage_index) st w).2.2.2.2.1
  rw [hdc] at ha1 ha2 ha3
  exact ⟨ha1, ha2, ha3⟩

lemma step_day_bounds (E : ℚ → ℚ) (f : FieldConfig) (st : FieldState) (w : WeatherDay)
    (hrain : 0 ≤ w.rain) (hirr : 0 ≤ f.management.irrigation_mm_day)
    (hth : 0 ≤ f.soil.runoff_threshold_mm)
    (hlg : 0 ≤ (stage_at f.crop st.stage_index).lai_gain)
    (hlm : 0.05 ≤ f.crop.lai_max)
    (hw0 : 0 ≤ st.soil_water_mm)
    (hl0 : 0 ≤ st.lai) (hlc : st.lai ≤ f.crop.lai_max) :
    (0 ≤ (step_day E f st w).soil_water_mm ∧
     (step_day E f st w).soil_water_mm ≤ rootzone_capacity f.soil) ∧
    (0.001 ≤ (step_day E f st w).stress_w ∧ (step_day E f st w).stress_w ≤ 1) ∧
    (0.4 ≤ (step_day E f st w).stress_n ∧ (step_day E f st w).stress_n ≤ 1) ∧
    (0 ≤ (step_day E f st w).lai ∧ (step_day E f st w).lai ≤ f.crop.lai_max) := by
  have hD := day_core_proj E f (stage_at f.crop st.stage_index) st w
  obtain ⟨hL, hW, hS, hN, hI, _, _, _, _⟩ := hD
  have hinfl : 0 ≤ dc_inflow f w := add_nonneg hrain hirr
  have hetc := dc_etc_nonneg (stage_at f.crop st.stage_index) w
  have hst1w : (dc_st1 f st w).soil_water_mm = st.soil_water_mm := rfl
  have hst1l : (dc_st1 f st w).lai = st.lai := rfl
  have hWnn := wb_w4_nonneg (dc_st1 f st w) f.soil (dc_inflow f w)
    (dc_etc (stage_at f.crop st.stage_index) w)
  have hWle := wb_w4_le_cap (dc_st1 f st w) f.soil (dc_inflow f w)
    (dc_etc (stage_at f.crop st.stage_index) w)
    (by rw [hst1w]; exact hw0) (by rw [hst1l]; exact hl0) hinfl hth hetc
  have hSb := wb_stress_bounds (dc_st1 f st w) f.soil (dc_inflow f w)
    (dc_etc (stage_at f.crop st.stage_index) w)
  have hNb := nutrients_stress_n_bounds (dc_st2 f (stage_at f.crop st.stage_index) st w)
    (stage_at f.crop st.stage_index) f.crop
  have hN3 : (dc_st3 f (stage_at f.crop st.stage_index) st w).stress_n =
      (nutrients_update (dc_st2 f (stage_at f.crop st.stage_index) st w)
        (stage_at f.crop st.stage_index) f.crop).stress_n := rfl
  have hgain := dc_lai_gain_nonneg f (stage_at f.crop st.stage_index) st w hlg hl0 hlc hlm
  rcases advance_stage_shape f.crop
    (day_core E f (stage_at f.crop st.stage_index) st w) with hAs | hAs
  all_goals {
    unfold step_day
    rw [hAs]
    refine ⟨?_, ?_, ?_, ?_⟩
    · constructor
      · show (0:ℚ) ≤ (day_core E f (stage_at f.crop st.stage_index) st w).soil_water_mm
        rw [hW]; exact hWnn
      · show (day_core E f (stage_at f.crop st.stage_index) st w).soil_water_mm ≤ _
        rw [hW]; exact hWle
    · constructor
      · show (0.001 : ℚ) ≤ (day_core E f (stage_at f.crop st.stage_index) st w).stress_w
        rw [hS]; exact hSb.1
      · show (day_core E f (stage_at f.crop st.stage_index) st w).stress_w ≤ 1
        rw [hS]; exact hSb.2
    · constructor
      · show (0.4 : ℚ) ≤ (day_core E f (stage_at f.crop st.stage_index) st w).stress_n
        rw [hN, hN3]; exact hNb.1
      · show (day_core E f (stage_at f.crop st.stage_index) st w).stress_n ≤ 1
        rw [hN, hN3]; exact hNb.2
    · constructor
      · show (0:ℚ) ≤ (day_core E f (stage_at f.crop st.stage_index) st w).lai
        rw [hL]
        exact le_min (by linarith) (add_nonneg hl0 hgain)
      · show (day_core E f (stage_at f.crop st.stage_index) st w).lai ≤ _
        rw [hL]; exact min_le_left _ _
  }

/-- Junk `WeatherDay` used only as the `getD` default. -/
def default_w : WeatherDay :=
  { date := "", tmin := 0, tmax := 0, rain := 0, rad := 0, et0 := none,
    wind := none, rh := none }

/-- Run invariant: in-range stage index, LAI within `[0, lai_max]`, soil
water within `[0, rootzone_capacity]`. -/
def StInv (f : FieldConfig) (st : FieldState) : Prop :=
  st.stage_index < f.crop.stages.length ∧ 0 ≤ st.lai ∧ st.lai ≤ f.crop.lai_max ∧
  0 ≤ st.soil_water_mm ∧ st.soil_water_mm ≤ rootzone_capacity f.soil

lemma stage_at_lai_gain_nonneg (c : CropParams) (i : ℕ)
    (h : ∀ s ∈ c.stages, 0 ≤ s.lai_gain) : 0 ≤ (stage_at c i).lai_gain := by
  unfold stage_at
  by_cases hi : i < c.stages.length
  · rw [List.getD_eq_getElem c.stages default_stage hi]
    exact h _ (List.getElem_mem _)
  · rw [List.getD_eq_default c.stages default_stage (by omega)]
    norm_num [default_stage]

lemma step_day_inv (E : ℚ → ℚ) (f : FieldConfig) (st : FieldState) (w : WeatherDay)
    (hrain : 0 ≤ w.rain) (hirr : 0 ≤ f.management.irrigation_mm_day)
    (hth : 0 ≤ f.soil.runoff_threshold_mm)
    (hlg : ∀ s ∈ f.crop.stages, 0 ≤ s.lai_gain)
    (hlm : 0.05 ≤ f.crop.lai_max)
    (hinv : StInv f st) :
    StInv f (step_day E f st w) ∧
      0.001 ≤ (step_day E f st w).stress_w ∧ (step_day E f st w).stress_w ≤ 1 ∧
      0.4 ≤ (step_day E f st w).stress_n ∧ (step_day E f st w).stress_n ≤ 1 := by
  obtain ⟨hidx, hl0, hlc, hw0, hwc⟩ := hinv
  obtain ⟨hWb, hSb, hNb, hLb⟩ := step_day_bounds E f st w hrain hirr hth
    (stage_at_lai_gain_nonneg f.crop st.stage_index hlg) hlm hw0 hl0 hlc
  obtain ⟨_, _, hidx'⟩ := step_day_proj_index E f st w
  exact ⟨⟨hidx' hidx, hLb.1, hLb.2, hWb.1, hWb.2⟩, hSb.1, hSb.2, hNb.1, hNb.2⟩

lemma steps_from_cons (E : ℚ → ℚ) (f : FieldConfig) (st : FieldState) (w : WeatherDay)
    (ws : List WeatherDay) :
    steps_from E f st (w :: ws) =
      step_day E f st w :: steps_from E f (step_day E f st w) ws := rfl

lemma steps_from_inv (E : ℚ → ℚ) (f : FieldConfig)
    (hirr : 0 ≤ f.management.irrigation_mm_day)
    (hth : 0 ≤ f.soil.runoff_threshold_mm)
    (hlg : ∀ s ∈ f.crop.stages, 0 ≤ s.lai_gain)
    (hlm : 0.05 ≤ f.crop.lai_max) :
    ∀ (ws : List WeatherDay) (st : FieldState), (∀ w ∈ ws, 0 ≤ w.rain) → StInv f st →
      ∀ st' ∈ steps_from E f st ws, StInv f st' ∧
        0.001 ≤ st'.stress_w ∧ st'.stress_w ≤ 1 ∧
        0.4 ≤ st'.stress_n ∧ st'.stress_n ≤ 1 := by
  intro ws
  induction ws with
  | nil => intro st _ _ st' h; simp [steps_from] at h
  | cons w ws ih =>
    intro st hr hinv st' hmem
    have hstep := step_day_inv E f st w (hr w (List.mem_cons_self w ws)) hirr hth hlg hlm hinv
    rw [steps_from_cons] at hmem
    rcases List.mem_cons.mp hmem with rfl | hmem'
    · exact ⟨hstep.1, hstep.2⟩
    · exact ih (step_day E f st w) (fun v hv => hr v (List.mem_cons_of_mem w hv))
        hstep.1 st' hmem'

lemma mem_zipWith {α β γ : Type} (g : α → β → γ) :
    ∀ {l1 : List α} {l2 : List β} {c : γ}, c ∈ List.zipWith g l1 l2 →
      ∃ a ∈ l1, ∃ b ∈ l2, c = g a b := by
  intro l1
  induction l1 with
  | nil => intro l2 c h; simp at h
  | cons a as ih =>
    intro l2 c h
    cases l2 with
    | nil => simp at h
    | cons b bs =>
      rcases List.mem_cons.mp h with rfl | h'
      · exact ⟨a, List.mem_cons_self a as, b, List.mem_cons_self b bs, rfl⟩
      · rcases ih h' with ⟨x, hx, y, hy, rfl⟩
        exact ⟨x, List.mem_cons_of_mem a hx, y, List.mem_cons_of_mem b hy, rfl⟩

lemma init_state_inv (f : FieldConfig) (d : String)
    (hne : f.crop.stages ≠ []) (hlm : 0.05 ≤ f.crop.lai_max) :
    StInv f (init_state f d) := by
  refine ⟨?_, by norm_num [init_state], ?_, ?_, ?_⟩
  · show 0 < f.crop.stages.length
    exact List.length_pos.mpr hne
  · show (0.05 : ℚ) ≤ f.crop.lai_max
    exact hlm
  · exact le_min (by norm_num) (rootzone_capacity_nonneg f.soil)
  · exact min_le_right _ _

lemma run_field_unfold (E : ℚ → ℚ) (f : FieldConfig) (w0 : WeatherDay)
    (rest : List WeatherDay) (hne : f.crop.stages ≠ []) :
    run_field E f (w0 :: rest) =
      some { field_id := f.id,
             series := List.zipWith (mk_day_result f) (w0 :: rest)
               (steps_from E f (init_state f w0.date) (w0 :: rest)),
             yield_t_ha := some (estimate_yield f (List.zipWith (mk_day_result f)
               (w0 :: rest) (steps_from E f (init_state f w0.date) (w0 :: rest)))).1,
             harvest_date := some (estimate_yield f (List.zipWith (mk_day_result f)
               (w0 :: rest) (steps_from E f (init_state f w0.date) (w0 :: rest)))).2.1,
             grade := some (estimate_yield f (List.zipWith (mk_day_result f)
               (w0 :: rest) (steps_from E f (init_state f w0.date) (w0 :: rest)))).2.2 } := by
  have hempty : f.crop.stages.isEmpty = false := by
    cases h : f.crop.stages with
    | nil => exact absurd h hne
    | cons a l => rfl
  simp only [run_field, hempty, Bool.false_eq_true, if_false]

/-- C1: along any run of the field simulator with non-negative rain,
irrigation rate and runoff threshold, non-negative stage LAI-gain
coefficients, and an initial LAI (0.05) not above `lai_max`, every emitted
`DayResult` keeps soil water within `[0, rootzone_capacity]`, water stress
within `[0.001, 1]`, nitrogen stress within `[0.4, 1]`, and LAI within
`[0, lai_max]`. -/
theorem run_field_day_bounds (E : ℚ → ℚ) (f : FieldConfig) (weather : List WeatherDay)
    (r : RunResult)
    (hrain : ∀ w ∈ weather, 0 ≤ w.rain)
    (hirr : 0 ≤ f.management.irrigation_mm_day)
    (hth : 0 ≤ f.soil.runoff_threshold_mm)
    (hlg : ∀ s ∈ f.crop.stages, 0 ≤ s.lai_gain)
    (hlm : 0.05 ≤ f.crop.lai_max)
    (hrun : run_field E f weather = some r) :
    ∀ d ∈ r.series,
      0 ≤ d.soil_water_mm ∧ d.soil_water_mm ≤ rootzone_capacity f.soil ∧
      0.001 ≤ d.stress_w ∧ d.stress_w ≤ 1 ∧
      0.4 ≤ d.stress_n ∧ d.stress_n ≤ 1 ∧
      0 ≤ d.lai ∧ d.lai ≤ f.crop.lai_max := by
  cases weather with
  | nil => simp [run_field] at hrun
  | cons w0 rest =>
    by_cases hne : f.crop.stages = []
    · rw [show run_field E f (w0 :: rest) = none from by simp [run_field, hne]] at hrun
      cases hrun
    · rw [run_field_unfold E f w0 rest hne] at hrun
      have hser : r.series = List.zipWith (mk_day_result f) (w0 :: rest)
          (steps_from E f (init_state f w0.date) (w0 :: rest)) := by
        rw [← Option.some_inj.mp hrun]
      intro d hd
      rw [hser] at hd
      rcases mem_zipWith (mk_day_result f) hd with ⟨w, _, st', hst', rfl⟩
      have hb := steps_from_inv E f hirr hth hlg hlm (w0 :: rest)
        (init_state f w0.date) hrain (init_state_inv f w0.date hne hlm) st' hst'
      obtain ⟨⟨_, hl0, hlc, hw0, hwc⟩, hs1, hs2, hn1, hn2⟩ := hb
      exact ⟨hw0, hwc, hs1, hs2, hn1, hn2, hl0, hlc⟩

/-- Concrete exponential stand-in used by witnesses (a constant function;
the theorems hypothesize only the properties of `exp` they use, and the
witnesses discharge those at this function). -/
def E0 : ℚ → ℚ := fun _ => 1

/-- Minimal single-stage crop used by witnesses. -/
def w_crop : CropParams :=
  { species := "t", cultivar := "t", tb := 8, t_opt := 30, lai_max := 5, hi := 0.48,
    stages := [mkStage "veg" (some 80) none 0 0.8 0 [] []],
    stress_sensitivity := [("flower_water", 0.6)] }

/-- Single-layer soil used by witnesses. -/
def w_soil : SoilProfile :=
  { layers := [⟨60, 150, 40, 50, 1.5, 6.5⟩], runoff_threshold_mm := 20 }

/-- Field configuration used by witnesses. -/
def w_cfg : FieldConfig :=
  { id := "F1", name := "t", area_ha := 1, soil := w_soil, crop := w_crop,
    management := { plant_date := "2025-04-01", density_plants_m2 := 6,
                    irrigation_mm_day := 0 } }

/-- One windless, rainless weather day with zero radiation and zero ET0,
used by witnesses. -/
def w_day : WeatherDay := ⟨"2025-04-01", 8, 8, 0, 0, some 0, none, none⟩

/-- The day result the one-day witness run emits. -/
def d0 : DayResult :=
  { date := "2025-04-01", stage := "veg", lai := 0.05, biomass_dm_kg_ha := 0,
    soil_water_mm := 120, stress_w := 1, stress_n := 1, n_stock_kg_ha := 0,
    p_stock_kg_ha := 0, k_stock_kg_ha := 0, gdd_progress := some 0,
    gdd_target := some 80, crop := some "t" }

/-- The run result of the one-day witness run. -/
def r0 : RunResult :=
  { field_id := "F1", series := [d0], yield_t_ha := some 0,
    harvest_date := some "2025-04-01", grade := some "A" }

set_option maxRecDepth 4000 in
lemma run_w : run_field E0 w_cfg [w_day] = some r0 := by
  with_unfolding_all decide

/-- Witness for C1: the single day of the one-day witness run satisfies all
the bounds. -/
theorem run_field_day_bounds_witness :
    0 ≤ d0.soil_water_mm ∧ d0.soil_water_mm ≤ rootzone_capacity w_cfg.soil ∧
    0.001 ≤ d0.stress_w ∧ d0.stress_w ≤ 1 ∧
    0.4 ≤ d0.stress_n ∧ d0.stress_n ≤ 1 ∧
    0 ≤ d0.lai ∧ d0.lai ≤ w_cfg.crop.lai_max :=
  run_field_day_bounds E0 w_cfg [w_day] r0
    (by intro w hw; rw [List.mem_singleton] at hw; subst hw; exact le_refl 0)
    (le_refl 0)
    (by show (0:ℚ) ≤ 20; norm_num)
    (by intro s hs
        have hs' : s = mkStage "veg" (some 80) none 0 0.8 0 [] [] := by
          simpa [w_cfg, w_crop] using hs
        subst hs'
        exact le_refl 0)
    (by show (0.05:ℚ) ≤ 5; norm_num)
    run_w d0 (List.mem_singleton.mpr rfl)

lemma steps_from_length (E : ℚ → ℚ) (f : FieldConfig) :
    ∀ (ws : List WeatherDay) (st : FieldState),
      (steps_from E f st ws).length = ws.length := by
  intro ws
  induction ws with
  | nil => intro st; rfl
  | cons w ws ih => intro st; rw [steps_from_cons, List.length_cons, ih, List.length_cons]

lemma steps_from_index_lt (E : ℚ → ℚ) (f : FieldConfig) :
    ∀ (ws : List WeatherDay) (st : FieldState),
      st.stage_index < f.crop.stages.length →
      ∀ st' ∈ steps_from E f st ws, st'.stage_index < f.crop.stages.length := by
  intro ws
  induction ws with
  | nil => intro st _ st' h; simp [steps_from] at h
  | cons w ws ih =>
    intro st hst st' hmem
    rw [steps_from_cons] at hmem
    have hnext := (step_day_proj_index E f st w).2.2 hst
    rcases List.mem_cons.mp hmem with rfl | hmem'
    · exact hnext
    · exact ih (step_day E f st w) hnext st' hmem'

lemma steps_from_chain (E : ℚ → ℚ) (f : FieldConfig) (dflt : FieldState) :
    ∀ (ws : List WeatherDay) (st : FieldState) (i : ℕ),
      i + 1 < (steps_from E f st ws).length →
      ((steps_from E f st ws).getD i dflt).stage_index ≤
        ((steps_from E f st ws).getD (i + 1) dflt).stage_index ∧
      ((steps_from E f st ws).getD (i + 1) dflt).stage_index ≤
        ((steps_from E f st ws).getD i dflt).stage_index + 1 := by
  intro ws
  induction ws with
  | nil => intro st i h; simp [steps_from] at h
  | cons w ws ih =>
    intro st i h
    rw [steps_from_cons] at h ⊢
    cases i with
    | zero =>
      cases hws : ws with
      | nil =>
        subst hws
        simp [steps_from] at h
      | cons w2 ws2 =>
        subst hws
        rw [steps_from_cons]
        simp only [List.getD_cons_zero, List.getD_cons_succ]
        exact ⟨(step_day_proj_index E f _ w2).1, (step_day_proj_index E f _ w2).2.1⟩
    | succ j =>
      simp only [List.getD_cons_succ]
      apply ih (step_day E f st w) j
      simpa using h

/-- C2: for a run (whose series is the day-by-day snapshot of the state
sequence), a single `step_day` never decreases the stage index and
increments it by at most one regardless of how far the gdd/dap target was
exceeded; hence along the state sequence the stage index is non-decreasing,
moves by at most one between consecutive days, and never exceeds
`len(stages) - 1`. -/
theorem stage_index_monotone (E : ℚ → ℚ) (f : FieldConfig) (weather : List WeatherDay)
    (r : RunResult) (w0 : WeatherDay)
    (hw : weather.head? = some w0)
    (hrun : run_field E f weather = some r) :
    r.series = List.zipWith (mk_day_result f) weather
      (steps_from E f (init_state f w0.date) weather) ∧
    (∀ (st : FieldState) (w : WeatherDay),
      st.stage_index ≤ (step_day E f st w).stage_index ∧
      (step_day E f st w).stage_index ≤ st.stage_index + 1) ∧
    (∀ i, i + 1 < (steps_from E f (init_state f w0.date) weather).length →
      ((steps_from E f (init_state f w0.date) weather).getD i
          (init_state f w0.date)).stage_index ≤
        ((steps_from E f (init_state f w0.date) weather).getD (i + 1)
          (init_state f w0.date)).stage_index ∧
      ((steps_from E f (init_state f w0.date) weather).getD (i + 1)
          (init_state f w0.date)).stage_index ≤
        ((steps_from E f (init_state f w0.date) weather).getD i
          (init_state f w0.date)).stage_index + 1) ∧
    (∀ st' ∈ steps_from E f (init_state f w0.date) weather,
      st'.stage_index ≤ f.crop.stages.length - 1) := by
  cases weather with
  | nil => cases hw
  | cons w0' rest =>
    have hw0 : w0' = w0 := by simpa using hw
    subst hw0
    by_cases hne : f.crop.stages = []
    · rw [show run_field E f (w0' :: rest) = none from by simp [run_field, hne]] at hrun
      cases hrun
    · refine ⟨?_, ?_, ?_, ?_⟩
      · rw [run_field_unfold E f w0' rest hne] at hrun
        rw [← Option.some_inj.mp hrun]
      · intro st w
        exact ⟨(step_day_proj_index E f st w).1, (step_day_proj_index E f st w).2.1⟩
      · exact steps_from_chain E f (init_state f w0'.date) (w0' :: rest)
          (init_state f w0'.date)
      · intro st' hmem
        have hlen : 0 < f.crop.stages.length := List.length_pos.mpr hne
        have := steps_from_index_lt E f (w0' :: rest) (init_state f w0'.date)
          (by show 0 < f.crop.stages.length; exact hlen) st' hmem
        omega

/-- Witness for C2 at the one-day witness run: a single concrete step moves
the stage index by at most one and never backwards. -/
theorem stage_index_monotone_witness :
    (init_state w_cfg "2025-04-01").stage_index ≤
      (step_day E0 w_cfg (init_state w_cfg "2025-04-01") w_day).stage_index ∧
    (step_day E0 w_cfg (init_state w_cfg "2025-04-01") w_day).stage_index ≤
      (init_state w_cfg "2025-04-01").stage_index + 1 :=
  (stage_index_monotone E0 w_cfg [w_day] r0 w_day rfl run_w).2.1
    (init_state w_cfg "2025-04-01") w_day

lemma zipWith_date (f : FieldConfig) :
    ∀ (ws : List WeatherDay) (sts : List FieldState) (i : ℕ),
      i < ws.length → i < sts.length →
      ((List.zipWith (mk_day_result f) ws sts).getD i default_day).date =
        (ws.getD i default_w).date := by
  intro ws
  induction ws with
  | nil => intro sts i h _; simp at h
  | cons w ws ih =>
    intro sts i h1 h2
    cases sts with
    | nil => simp at h2
    | cons s ss =>
      cases i with
      | zero => rfl
      | succ j =>
        simp only [List.zipWith_cons_cons, List.getD_cons_succ]
        exact ih ss j (by simpa using h1) (by simpa using h2)

/-- C3: `run_field` on an empty weather series fails (never produces a
`RunResult`); on a non-empty series (with a non-empty stage list, as every
catalog crop has) it starts from soil water `min(120, rootzone_capacity)`
and produces exactly one `DayResult` per input weather day, in input
order (dates agree position-wise). -/
theorem run_field_empty_and_series (E : ℚ → ℚ) (f : FieldConfig)
    (weather : List WeatherDay) :
    run_field E f [] = none ∧
    (∀ (w0 : WeatherDay) (rest : List WeatherDay), weather = w0 :: rest →
      f.crop.stages ≠ [] →
      (init_state f w0.date).soil_water_mm = min 120 (rootzone_capacity f.soil) ∧
      ∃ r, run_field E f weather = some r ∧
        r.series.length = weather.length ∧
        ∀ i, i < weather.length →
          (r.series.getD i default_day).date = (weather.getD i default_w).date) := by
  refine ⟨rfl, ?_⟩
  intro w0 rest hw hne
  subst hw
  refine ⟨rfl, _, run_field_unfold E f w0 rest hne, ?_, ?_⟩
  · show (List.zipWith (mk_day_result f) (w0 :: rest)
      (steps_from E f (init_state f w0.date) (w0 :: rest))).length = _
    rw [List.length_zipWith, steps_from_length]
    exact min_self _
  · intro i hi
    exact zipWith_date f (w0 :: rest) _ i hi (by rw [steps_from_length]; exact hi)

/-- Witness for C3: the empty series fails, and the concrete one-day run
starts from soil water `min(120, capacity)`. -/
theorem run_field_empty_and_series_witness :
    run_field E0 w_cfg [] = none ∧
    (init_state w_cfg w_day.date).soil_water_mm =
      min 120 (rootzone_capacity w_cfg.soil) :=
  ⟨(run_field_empty_and_series E0 w_cfg [w_day]).1,
   ((run_field_empty_and_series E0 w_cfg [w_day]).2 w_day [] rfl
      (by with_unfolding_all decide)).1⟩

lemma list_min_one_le (l : List ℚ) : ∀ x ∈ l, list_min_one l ≤ x := by
  induction l with
  | nil => intro x hx; cases hx
  | cons a t ih =>
    intro x hx
    cases t with
    | nil =>
      rcases List.mem_singleton.mp hx with rfl
      exact le_refl x
    | cons b t2 =>
      rcases List.mem_cons.mp hx with rfl | hx'
      · exact min_le_left _ _
      · exact le_trans (min_le_right _ _) (ih x hx')

lemma list_min_one_mem (l : List ℚ) (h : l ≠ []) : list_min_one l ∈ l := by
  induction l with
  | nil => exact absurd rfl h
  | cons a t ih =>
    cases t with
    | nil => exact List.mem_singleton.mpr rfl
    | cons b t2 =>
      rcases le_or_lt a (list_min_one (b :: t2)) with hle | hlt
      · rw [show list_min_one (a :: b :: t2) = min a (list_min_one (b :: t2)) from rfl,
          min_eq_left hle]
        exact List.mem_cons_self _ _
      · rw [show list_min_one (a :: b :: t2) = min a (list_min_one (b :: t2)) from rfl,
          min_eq_right (le_of_lt hlt)]
        exact List.mem_cons_of_mem a (ih (by simp))

lemma stage_min_w_le (series : List DayResult) (name : String) :
    ∀ d ∈ series, d.stage = name → stage_min_w series name ≤ d.stress_w := by
  intro d hd hdn
  apply list_min_one_le
  exact List.mem_map_of_mem _ (List.mem_filter.mpr ⟨hd, by simp [hdn]⟩)

lemma stage_min_w_attained (series : List DayResult) (name : String)
    (h : ∃ d ∈ series, d.stage = name) :
    ∃ d ∈ series, d.stage = name ∧ d.stress_w = stage_min_w series name := by
  rcases h with ⟨d, hd, hdn⟩
  have hne : (series.filter (fun x => x.stage == name)).map (fun x => x.stress_w) ≠ [] := by
    have : d ∈ series.filter (fun x => x.stage == name) :=
      List.mem_filter.mpr ⟨hd, by simp [hdn]⟩
    intro hc
    rw [List.map_eq_nil_iff] at hc
    rw [hc] at this
    cases this
  have hmem := list_min_one_mem _ hne
  rcases List.mem_map.mp hmem with ⟨e, he, heq⟩
  rcases List.mem_filter.mp he with ⟨hes, hen⟩
  exact ⟨e, hes, by simpa using hen, heq⟩

lemma ey_flower_min_char (series : List DayResult) :
    (∀ d ∈ series, d.stage = "flowering" → ey_flower_min series ≤ d.stress_w) ∧
    ((∃ d ∈ series, d.stage = "flowering" ∧ d.stress_w = ey_flower_min series) ∨
      (ey_flower_min series = 1 ∧ ∀ d ∈ series, d.stage ≠ "flowering")) := by
  by_cases hc : ("flowering" : String) ∈ series.map (fun d => d.stage)
  · have hcb : ((series.map (fun d => d.stage)).contains "flowering") = true := by
      exact List.elem_iff.mpr hc
    have hex : ∃ d ∈ series, d.stage = "flowering" := by
      rcases List.mem_map.mp hc with ⟨d, hd, he⟩
      exact ⟨d, hd, he⟩
    constructor
    · intro d hd hdn
      rw [ey_flower_min, if_pos hcb]
      exact stage_min_w_le series _ d hd hdn
    · left
      rcases stage_min_w_attained series _ hex with ⟨d, hd, hdn, he⟩
      exact ⟨d, hd, hdn, by rw [ey_flower_min, if_pos hcb]; exact he⟩
  · have hcb : ((series.map (fun d => d.stage)).contains "flowering") = false := by
      rw [← Bool.not_eq_true]
      intro hb
      exact hc (List.elem_iff.mp hb)
    constructor
    · intro d hd hdn
      exact absurd (List.mem_map.mpr ⟨d, hd, hdn⟩) hc
    · right
      refine ⟨?_, ?_⟩
      · simp only [ey_flower_min, hcb, Bool.false_eq_true, if_false]
      · intro d hd hdn
        exact hc (List.mem_map.mpr ⟨d, hd, hdn⟩)

lemma ey_grain_min_char (series : List DayResult) :
    (∀ d ∈ series, d.stage = "grainfill" → ey_grain_min series ≤ d.stress_w) ∧
    ((∃ d ∈ series, d.stage = "grainfill" ∧ d.stress_w = ey_grain_min series) ∨
      (ey_grain_min series = 1 ∧ ∀ d ∈ series, d.stage ≠ "grainfill")) := by
  by_cases hc : ("grainfill" : String) ∈ series.map (fun d => d.stage)
  · have hcb : ((series.map (fun d => d.stage)).contains "grainfill") = true := by
      exact List.elem_iff.mpr hc
    have hex : ∃ d ∈ series, d.stage = "grainfill" := by
      rcases List.mem_map.mp hc with ⟨d, hd, he⟩
      exact ⟨d, hd, he⟩
    constructor
    · intro d hd hdn
      rw [ey_grain_min, if_pos hcb]
      exact stage_min_w_le series _ d hd hdn
    · left
      rcases stage_min_w_attained series _ hex with ⟨d, hd, hdn, he⟩
      exact ⟨d, hd, hdn, by rw [ey_grain_min, if_pos hcb]; exact he⟩
  · have hcb : ((series.map (fun d => d.stage)).contains "grainfill") = false := by
      rw [← Bool.not_eq_true]
      intro hb
      exact hc (List.elem_iff.mp hb)
    constructor
    · intro d hd hdn
      exact absurd (List.mem_map.mpr ⟨d, hd, hdn⟩) hc
    · right
      refine ⟨?_, ?_⟩
      · simp only [ey_grain_min, hcb, Bool.false_eq_true, if_false]
      · intro d hd hdn
        exact hc (List.mem_map.mpr ⟨d, hd, hdn⟩)

lemma first_true_some_spec (p : ℕ → Bool) :
    ∀ (n s i : ℕ), first_true p n s = some i →
      s ≤ i ∧ i < s + n ∧ p i = true ∧ ∀ j, s ≤ j → j < i → p j = false := by
  intro n
  induction n with
  | zero => intro s i h; cases h
  | succ m ih =>
    intro s i h
    rw [first_true] at h
    by_cases hp : p s = true
    · rw [if_pos hp] at h
      cases h
      exact ⟨le_refl _, by omega, hp, fun j h1 h2 => by omega⟩
    · rw [if_neg hp] at h
      obtain ⟨h1, h2, h3, h4⟩ := ih (s + 1) i h
      refine ⟨by omega, by omega, h3, fun j hj1 hj2 => ?_⟩
      rcases Nat.eq_or_lt_of_le hj1 with rfl | hlt
      · exact Bool.not_eq_true _ ▸ hp
      · exact h4 j hlt hj2

lemma first_true_none_spec (p : ℕ → Bool) :
    ∀ (n s : ℕ), first_true p n s = none →
      ∀ j, s ≤ j → j < s + n → p j = false := by
  intro n
  induction n with
  | zero => intro s _ j h1 h2; omega
  | succ m ih =>
    intro s h j h1 h2
    rw [first_true] at h
    by_cases hp : p s = true
    · rw [if_pos hp] at h; cases h
    · rw [if_neg hp] at h
      rcases Nat.eq_or_lt_of_le h1 with rfl | hlt
      · exact Bool.not_eq_true _ ▸ hp
      · exact ih (s + 1) h j hlt (by omega)

lemma getLastD_eq_getLast (l : List DayResult) (h : l ≠ []) :
    l.getLastD default_day = l.getLast h := by
  rw [List.getLastD_eq_getLast?, List.getLast?_eq_getLast l h]
  rfl

lemma getD_last_index (l : List DayResult) (h : l ≠ []) :
    l.getD (l.length - 1) default_day = l.getLast h := by
  have hl : l.length - 1 < l.length := by
    have := List.length_pos.mpr h
    omega
  rw [List.getD_eq_getElem l default_day hl, List.getLast_eq_getElem]

lemma maturity_index_lt (series : List DayResult) (h : series ≠ []) :
    maturity_index series < series.length := by
  unfold maturity_index
  cases hft : first_true (mat_p series) series.length 0 with
  | none =>
    have := List.length_pos.mpr h
    simp only [Option.getD_none]
    omega
  | some i =>
    have := (first_true_some_spec (mat_p series) series.length 0 i hft).2.1
    simp only [Option.getD_some]
    omega

/-- C4: for every non-empty day series, `estimate_yield` returns (1) the
final day's biomass times `clamp(hi * (1 - sens_fw*(1-fm) -
sens_gw*(1-gm)), 0.3, 1.0)` divided by 1000, where `fm`/`gm` are the
minimum water stress over the "flowering"/"grainfill" days, 1.0 when the
stage never occurs; (2) as harvest date the date of the first day at
index > 0 whose stage is "maturity" or "grainfill", else the last day's
date — in either case a date present in the series; and (3) grade "A" when
the average of the two minima exceeds 0.8, "B" when it exceeds 0.6, else
"C". -/
theorem estimate_yield_spec (f : FieldConfig) (series : List DayResult)
    (hne : series ≠ []) :
    ∃ fm gm : ℚ,
      (∀ d ∈ series, d.stage = "flowering" → fm ≤ d.stress_w) ∧
      ((∃ d ∈ series, d.stage = "flowering" ∧ d.stress_w = fm) ∨
        (fm = 1 ∧ ∀ d ∈ series, d.stage ≠ "flowering")) ∧
      (∀ d ∈ series, d.stage = "grainfill" → gm ≤ d.stress_w) ∧
      ((∃ d ∈ series, d.stage = "grainfill" ∧ d.stress_w = gm) ∨
        (gm = 1 ∧ ∀ d ∈ series, d.stage ≠ "grainfill")) ∧
      (estimate_yield f series).1 =
        (series.getLast hne).biomass_dm_kg_ha *
          max 0.3 (min 1 (f.crop.hi *
            (1 - dget f.crop.stress_sensitivity "flower_water" 0 * (1 - fm)
               - dget f.crop.stress_sensitivity "grainfill_water" 0 * (1 - gm)))) / 1000 ∧
      ((∃ i, 0 < i ∧ i < series.length ∧
          ((series.getD i default_day).stage = "maturity" ∨
            (series.getD i default_day).stage = "grainfill") ∧
          (estimate_yield f series).2.1 = (series.getD i default_day).date ∧
          ∀ j, 0 < j → j < i →
            (series.getD j default_day).stage ≠ "maturity" ∧
            (series.getD j default_day).stage ≠ "grainfill") ∨
        ((estimate_yield f series).2.1 = (series.getLast hne).date ∧
          ∀ j, 0 < j → j < series.length →
            (series.getD j default_day).stage ≠ "maturity" ∧
            (series.getD j default_day).stage ≠ "grainfill")) ∧
      (estimate_yield f series).2.1 ∈ series.map (fun d => d.date) ∧
      (estimate_yield f series).2.2 =
        (if 0.8 < (fm + gm) / 2 then "A"
         else if 0.6 < (fm + gm) / 2 then "B" else "C") := by
  refine ⟨ey_flower_min series, ey_grain_min series,
    (ey_flower_min_char series).1, (ey_flower_min_char series).2,
    (ey_grain_min_char series).1, (ey_grain_min_char series).2, ?_, ?_, ?_, rfl⟩
  · show (series.getLastD default_day).biomass_dm_kg_ha * ey_hi_eff f series / 1000 = _
    rw [getLastD_eq_getLast series hne]
    rfl
  · cases hft : first_true (mat_p series) series.length 0 with
    | some i =>
      obtain ⟨_, hilt, hpi, hpre⟩ := first_true_some_spec (mat_p series) series.length 0 i hft
      have hmi : maturity_index series = i := by
        unfold maturity_index
        rw [hft]
        rfl
      simp only [mat_p, Bool.and_eq_true, Bool.or_eq_true, beq_iff_eq,
        decide_eq_true_eq] at hpi
      refine Or.inl ⟨i, hpi.2, by omega, hpi.1, ?_, ?_⟩
      · show (series.getD (maturity_index series) default_day).date = _
        rw [hmi]
      · intro j hj0 hji
        have hj := hpre j (by omega) hji
        constructor
        · intro heq
          have hmt : mat_p series j = true := by
            unfold mat_p
            rw [heq]
            simp [hj0]
          rw [hmt] at hj
          cases hj
        · intro heq
          have hmt : mat_p series j = true := by
            unfold mat_p
            rw [heq]
            simp [hj0]
          rw [hmt] at hj
          cases hj
    | none =>
      have hmi : maturity_index series = series.length - 1 := by
        unfold maturity_index
        rw [hft]
        rfl
      refine Or.inr ⟨?_, ?_⟩
      · show (series.getD (maturity_index series) default_day).date = _
        rw [hmi, getD_last_index series hne]
      · intro j hj0 hjlen
        have hj := first_true_none_spec (mat_p series) series.length 0 hft j
          (by omega) (by omega)
        constructor
        · intro heq
          have hmt : mat_p series j = true := by
            unfold mat_p
            rw [heq]
            simp [hj0]
          rw [hmt] at hj
          cases hj
        · intro heq
          have hmt : mat_p series j = true := by
            unfold mat_p
            rw [heq]
            simp [hj0]
          rw [hmt] at hj
          cases hj
  · have hlt := maturity_index_lt series hne
    show (series.getD (maturity_index series) default_day).date ∈ _
    rw [List.getD_eq_getElem series default_day hlt]
    exact List.mem_map.mpr ⟨_, List.getElem_mem _, rfl⟩

/-- Witness for C4 on the concrete one-day series of the witness run: its
harvest date appears among the series dates. -/
theorem estimate_yield_spec_witness :
    ∃ fm gm : ℚ, fm = 1 ∧ gm = 1 ∧
      (estimate_yield w_cfg [d0]).2.1 ∈ ([d0] : List DayResult).map (fun d => d.date) := by
  obtain ⟨fm, gm, _, hfm, _, hgm, _, _, hmem, _⟩ :=
    estimate_yield_spec w_cfg [d0] (by simp)
  refine ⟨fm, gm, ?_, ?_, hmem⟩
  · rcases hfm with ⟨d, hd, hdn, _⟩ | ⟨h1, _⟩
    · rw [List.mem_singleton] at hd
      subst hd
      exact absurd hdn (by with_unfolding_all decide)
    · exact h1
  · rcases hgm with ⟨d, hd, hdn, _⟩ | ⟨h1, _⟩
    · rw [List.mem_singleton] at hd
      subst hd
      exact absurd hdn (by with_unfolding_all decide)
    · exact h1

lemma advance_stage_proj (c : CropParams) (st : FieldState) :
    (advance_stage c st).biomass_dm_kg_ha = st.biomass_dm_kg_ha ∧
    (advance_stage c st).lai = st.lai ∧
    (advance_stage c st).stress_w = st.stress_w ∧
    (advance_stage c st).stress_n = st.stress_n ∧
    (advance_stage c st).soil_water_mm = st.soil_water_mm ∧
    (advance_stage c st).gdd_accum = st.gdd_accum ∧
    (advance_stage c st).dap = st.dap ∧
    (advance_stage c st).date = st.date := by
  rcases advance_stage_shape c st with h | h <;> rw [h] <;>
    exact ⟨rfl, rfl, rfl, rfl, rfl, rfl, rfl, rfl⟩

lemma stage_at_rue_nonneg (c : CropParams) (i : ℕ)
    (h : ∀ s ∈ c.stages, 0 ≤ s.rue) : 0 ≤ (stage_at c i).rue := by
  unfold stage_at
  by_cases hi : i < c.stages.length
  · rw [List.getD_eq_getElem c.stages default_stage hi]
    exact h _ (List.getElem_mem _)
  · rw [List.getD_eq_default c.stages default_stage (by omega)]
    norm_num [default_stage]

lemma step_day_biomass_eq (E : ℚ → ℚ) (f : FieldConfig) (st : FieldState) (w : WeatherDay) :
    (step_day E f st w).biomass_dm_kg_ha =
      st.biomass_dm_kg_ha +
        (stage_at f.crop st.stage_index).rue *
          (w.rad * (1 - E (-0.65 * (step_day E f st w).lai))) *
          (step_day E f st w).stress_w * (step_day E f st w).stress_n := by
  obtain ⟨hb, hl, hsw, hsn, _⟩ :=
    advance_stage_proj f.crop (day_core E f (stage_at f.crop st.stage_index) st w)
  unfold step_day
  rw [hb, hl, hsw, hsn,
    (day_core_proj E f (stage_at f.crop st.stage_index) st w).2.2.2.2.2.2.2.1]
  rfl

lemma step_day_biomass_mono (E : ℚ → ℚ) (f : FieldConfig) (st : FieldState) (w : WeatherDay)
    (hE : ∀ x : ℚ, x ≤ 0 → E x ≤ 1)
    (hrain : 0 ≤ w.rain) (hrad : 0 ≤ w.rad)
    (hirr : 0 ≤ f.management.irrigation_mm_day)
    (hth : 0 ≤ f.soil.runoff_threshold_mm)
    (hlg : ∀ s ∈ f.crop.stages, 0 ≤ s.lai_gain)
    (hlm : 0.05 ≤ f.crop.lai_max)
    (hrue : ∀ s ∈ f.crop.stages, 0 ≤ s.rue)
    (hinv : StInv f st) :
    st.biomass_dm_kg_ha ≤ (step_day E f st w).biomass_dm_kg_ha := by
  obtain ⟨hidx, hl0, hlc, hw0, hwc⟩ := hinv
  obtain ⟨_, hSb, hNb, hLb⟩ := step_day_bounds E f st w hrain hirr hth
    (stage_at_lai_gain_nonneg f.crop st.stage_index hlg) hlm hw0 hl0 hlc
  rw [step_day_biomass_eq]
  have harg : -0.65 * (step_day E f st w).lai ≤ 0 := by nlinarith [hLb.1]
  have hapar : 0 ≤ w.rad * (1 - E (-0.65 * (step_day E f st w).lai)) :=
    mul_nonneg hrad (by linarith [hE _ harg])
  have hdb : 0 ≤ (stage_at f.crop st.stage_index).rue *
      (w.rad * (1 - E (-0.65 * (step_day E f st w).lai))) *
      (step_day E f st w).stress_w * (step_day E f st w).stress_n :=
    mul_nonneg (mul_nonneg (mul_nonneg
      (stage_at_rue_nonneg f.crop st.stage_index hrue) hapar)
      (by linarith [hSb.1])) (by linarith [hNb.1])
  linarith

lemma steps_from_biomass_chain (E : ℚ → ℚ) (f : FieldConfig) (dflt : FieldState)
    (hE : ∀ x : ℚ, x ≤ 0 → E x ≤ 1)
    (hirr : 0 ≤ f.management.irrigation_mm_day)
    (hth : 0 ≤ f.soil.runoff_threshold_mm)
    (hlg : ∀ s ∈ f.crop.stages, 0 ≤ s.lai_gain)
    (hlm : 0.05 ≤ f.crop.lai_max)
    (hrue : ∀ s ∈ f.crop.stages, 0 ≤ s.rue) :
    ∀ (ws : List WeatherDay) (st : FieldState),
      (∀ w ∈ ws, 0 ≤ w.rain ∧ 0 ≤ w.rad) → StInv f st →
      (∀ i, i + 1 < (steps_from E f st ws).length →
        ((steps_from E f st ws).getD i dflt).biomass_dm_kg_ha ≤
          ((steps_from E f st ws).getD (i + 1) dflt).biomass_dm_kg_ha) ∧
      (0 ≤ st.biomass_dm_kg_ha →
        ∀ st' ∈ steps_from E f st ws, 0 ≤ st'.biomass_dm_kg_ha) := by
  intro ws
  induction ws with
  | nil =>
    intro st _ _
    exact ⟨fun i h => by simp [steps_from] at h, fun _ st' h => by simp [steps_from] at h⟩
  | cons w ws ih =>
    intro st hw hinv
    have hw0 := hw w (List.mem_cons_self w ws)
    have hinv1 := (step_day_inv E f st w hw0.1 hirr hth hlg hlm hinv).1
    have hmono := step_day_biomass_mono E f st w hE hw0.1 hw0.2 hirr hth hlg hlm hrue hinv
    obtain ⟨ihc, ihn⟩ := ih (step_day E f st w)
      (fun v hv => hw v (List.mem_cons_of_mem w hv)) hinv1
    constructor
    · intro i h
      rw [steps_from_cons] at h ⊢
      cases i with
      | zero =>
        cases hws : ws with
        | nil =>
          subst hws
          simp [steps_from] at h
        | cons w2 ws2 =>
          subst hws
          rw [steps_from_cons]
          simp only [List.getD_cons_zero, List.getD_cons_succ]
          have hw2 := hw w2 (List.mem_cons_of_mem w (List.mem_cons_self w2 ws2))
          exact step_day_biomass_mono E f _ w2 hE hw2.1 hw2.2 hirr hth hlg hlm hrue hinv1
      | succ j =>
        simp only [List.getD_cons_succ]
        exact ihc j (by simpa using h)
    · intro hb0 st' hmem
      rw [steps_from_cons] at hmem
      rcases List.mem_cons.mp hmem with rfl | hmem'
      · linarith
      · exact ihn (by linarith) st' hmem'

/-- C8: a single `step_day` adds exactly
`stage.rue * APAR * stress_w * stress_n` to the biomass, with
`APAR = rad * (1 - E(-0.65 * LAI))` at the day's updated LAI (`E` embeds
`math.exp`, hypothesized to satisfy `E x ≤ 1` for `x ≤ 0`); under
non-negative radiation (and the usual input sanity) the biomass of the
emitted state sequence is non-decreasing day over day, and the final yield
of every completed run is non-negative. -/
theorem biomass_gain_spec (E : ℚ → ℚ) (f : FieldConfig) (weather : List WeatherDay)
    (r : RunResult) (w0 : WeatherDay)
    (hE : ∀ x : ℚ, x ≤ 0 → E x ≤ 1)
    (hrain : ∀ w ∈ weather, 0 ≤ w.rain) (hrad : ∀ w ∈ weather, 0 ≤ w.rad)
    (hirr : 0 ≤ f.management.irrigation_mm_day)
    (hth : 0 ≤ f.soil.runoff_threshold_mm)
    (hlg : ∀ s ∈ f.crop.stages, 0 ≤ s.lai_gain)
    (hlm : 0.05 ≤ f.crop.lai_max)
    (hrue : ∀ s ∈ f.crop.stages, 0 ≤ s.rue)
    (hw : weather.head? = some w0)
    (hrun : run_field E f weather = some r) :
    (∀ (st : FieldState) (w : WeatherDay),
      (step_day E f st w).biomass_dm_kg_ha =
        st.biomass_dm_kg_ha +
          (stage_at f.crop st.stage_index).rue *
            (w.rad * (1 - E (-0.65 * (step_day E f st w).lai))) *
            (step_day E f st w).stress_w * (step_day E f st w).stress_n) ∧
    (∀ i, i + 1 < (steps_from E f (init_state f w0.date) weather).length →
      ((steps_from E f (init_state f w0.date) weather).getD i
          (init_state f w0.date)).biomass_dm_kg_ha ≤
        ((steps_from E f (init_state f w0.date) weather).getD (i + 1)
          (init_state f w0.date)).biomass_dm_kg_ha) ∧
    (∀ y, r.yield_t_ha = some y → 0 ≤ y) := by
  cases weather with
  | nil => cases hw
  | cons w0' rest =>
    have hw0 : w0' = w0 := by simpa using hw
    subst hw0
    by_cases hne : f.crop.stages = []
    · rw [show run_field E f (w0' :: rest) = none from by simp [run_field, hne]] at hrun
      cases hrun
    · have hinv0 : StInv f (init_state f w0'.date) := init_state_inv f w0'.date hne hlm
      have hboth : ∀ w ∈ w0' :: rest, 0 ≤ w.rain ∧ 0 ≤ w.rad :=
        fun w hwm => ⟨hrain w hwm, hrad w hwm⟩
      obtain ⟨hchain, hnn⟩ := steps_from_biomass_chain E f (init_state f w0'.date)
        hE hirr hth hlg hlm hrue (w0' :: rest) (init_state f w0'.date) hboth hinv0
      refine ⟨fun st w => step_day_biomass_eq E f st w, hchain, ?_⟩
      intro y hy
      rw [run_field_unfold E f w0' rest hne] at hrun
      have hr := Option.some_inj.mp hrun
      rw [← hr] at hy
      have hy' : y = (estimate_yield f (List.zipWith (mk_day_result f) (w0' :: rest)
          (steps_from E f (init_state f w0'.date) (w0' :: rest)))).1 := by
        exact (Option.some_inj.mp hy).symm
      have hsne : List.zipWith (mk_day_result f) (w0' :: rest)
          (steps_from E f (init_state f w0'.date) (w0' :: rest)) ≠ [] := by
        intro hc
        have := congrArg List.length hc
        rw [List.length_zipWith, steps_from_length] at this
        simp at this
      have hlast : (List.zipWith (mk_day_result f) (w0' :: rest)
          (steps_from E f (init_state f w0'.date) (w0' :: rest))).getLastD default_day ∈
          List.zipWith (mk_day_result f) (w0' :: rest)
            (steps_from E f (init_state f w0'.date) (w0' :: rest)) := by
        rw [getLastD_eq_getLast _ hsne]
        exact List.getLast_mem hsne
      rcases mem_zipWith (mk_day_result f) hlast with ⟨wx, _, stx, hstx, hmk⟩
      have hbx : 0 ≤ stx.biomass_dm_kg_ha :=
        hnn (by norm_num [init_state]) stx hstx
      have hbio : ((List.zipWith (mk_day_result f) (w0' :: rest)
          (steps_from E f (init_state f w0'.date) (w0' :: rest))).getLastD
            default_day).biomass_dm_kg_ha = stx.biomass_dm_kg_ha := by
        rw [hmk]
        rfl
      have heff : (0.3 : ℚ) ≤ ey_hi_eff f (List.zipWith (mk_day_result f) (w0' :: rest)
          (steps_from E f (init_state f w0'.date) (w0' :: rest))) := le_max_left _ _
      rw [hy']
      show 0 ≤ _ * ey_hi_eff f _ / 1000
      rw [hbio]
      positivity

/-- Witness for C8: the concrete one-day step satisfies the biomass-gain
equation. -/
theorem biomass_gain_spec_witness :
    (step_day E0 w_cfg (init_state w_cfg "2025-04-01") w_day).biomass_dm_kg_ha =
      (init_state w_cfg "2025-04-01").biomass_dm_kg_ha +
        (stage_at w_cfg.crop (init_state w_cfg "2025-04-01").stage_index).rue *
          (w_day.rad *
            (1 - E0 (-0.65 * (step_day E0 w_cfg (init_state w_cfg "2025-04-01") w_day).lai))) *
          (step_day E0 w_cfg (init_state w_cfg "2025-04-01") w_day).stress_w *
          (step_day E0 w_cfg (init_state w_cfg "2025-04-01") w_day).stress_n :=
  (biomass_gain_spec E0 w_cfg [w_day] r0 w_day (fun _ _ => le_refl 1)
    (by intro w hw; rw [List.mem_singleton] at hw; subst hw; exact le_refl 0)
    (by intro w hw; rw [List.mem_singleton] at hw; subst hw; exact le_refl 0)
    (le_refl 0)
    (by show (0:ℚ) ≤ 20; norm_num)
    (by intro s hs
        have hs' : s = mkStage "veg" (some 80) none 0 0.8 0 [] [] := by
          simpa [w_cfg, w_crop] using hs
        subst hs'
        exact le_refl 0)
    (by show (0.05:ℚ) ≤ 5; norm_num)
    (by intro s hs
        have hs' : s = mkStage "veg" (some 80) none 0 0.8 0 [] [] := by
          simpa [w_cfg, w_crop] using hs
        subst hs'
        show (0:ℚ) ≤ 0.8
        norm_num)
    rfl run_w).1 (init_state w_cfg "2025-04-01") w_day

lemma zipWith_stage (f : FieldConfig) :
    ∀ (ws : List WeatherDay) (sts : List FieldState) (i : ℕ),
      i < ws.length → i < sts.length →
      ((List.zipWith (mk_day_result f) ws sts).getD i default_day).stage =
        (stage_at f.crop ((sts.getD i (init_state f "")).stage_index)).name := by
  intro ws
  induction ws with
  | nil => intro sts i h _; simp at h
  | cons w ws ih =>
    intro sts i h1 h2
    cases sts with
    | nil => simp at h2
    | cons s ss =>
      cases i with
      | zero => rfl
      | succ j =>
        simp only [List.zipWith_cons_cons, List.getD_cons_succ]
        exact ih ss j (by simpa using h1) (by simpa using h2)

/-- C10 (implicit): `step_day` is exactly "run the day's arithmetic with
the stage read at entry (the pre-advance index), then advance the stage at
the very end" (first conjunct, a structural identity); a step moves the
index by zero or one; the `DayResult` snapshot is labelled with the stage
at the post-step (hence post-advance) index; along a run, day `i`'s
recorded stage name is the post-step state's stage; and the yield
estimator's per-stage minimum groups days by exactly that recorded label —
so a transition day is grouped under the new stage while its arithmetic
used the old stage's coefficients. -/
theorem stage_label_post_advance (E : ℚ → ℚ) (f : FieldConfig)
    (weather : List WeatherDay) (r : RunResult) (w0 : WeatherDay)
    (hw : weather.head? = some w0)
    (hrun : run_field E f weather = some r) :
    (∀ (st : FieldState) (w : WeatherDay),
      step_day E f st w =
        advance_stage f.crop (day_core E f (stage_at f.crop st.stage_index) st w)) ∧
    (∀ (st : FieldState) (w : WeatherDay),
      (step_day E f st w).stage_index = st.stage_index ∨
        (step_day E f st w).stage_index = st.stage_index + 1) ∧
    (∀ (w : WeatherDay) (st : FieldState),
      (mk_day_result f w st).stage = (stage_at f.crop st.stage_index).name) ∧
    r.series = List.zipWith (mk_day_result f) weather
      (steps_from E f (init_state f w0.date) weather) ∧
    (∀ i, i < (steps_from E f (init_state f w0.date) weather).length →
      (r.series.getD i default_day).stage =
        (stage_at f.crop (((steps_from E f (init_state f w0.date) weather).getD i
          (init_state f "")).stage_index)).name) ∧
    (∀ (s : List DayResult) (name : String),
      stage_min_w s name =
        list_min_one ((s.filter (fun d => d.stage == name)).map
          (fun d => d.stress_w))) := by
  cases weather with
  | nil => cases hw
  | cons w0' rest =>
    have hw0 : w0' = w0 := by simpa using hw
    subst hw0
    by_cases hne : f.crop.stages = []
    · rw [show run_field E f (w0' :: rest) = none from by simp [run_field, hne]] at hrun
      cases hrun
    · have hser : r.series = List.zipWith (mk_day_result f) (w0' :: rest)
          (steps_from E f (init_state f w0'.date) (w0' :: rest)) := by
        rw [run_field_unfold E f w0' rest hne] at hrun
        rw [← Option.some_inj.mp hrun]
      refine ⟨fun st w => rfl, ?_, fun w st => rfl, hser, ?_, fun s name => rfl⟩
      · intro st w
        have hdc : (day_core E f (stage_at f.crop st.stage_index) st w).stage_index =
            st.stage_index :=
          (day_core_proj E f (stage_at f.crop st.stage_index) st w).2.2.2.2.1
        rcases advance_stage_shape f.crop
          (day_core E f (stage_at f.crop st.stage_index) st w) with h | h
        · left
          show (advance_stage f.crop
            (day_core E f (stage_at f.crop st.stage_index) st w)).stage_index = _
          rw [h, hdc]
        · right
          show (advance_stage f.crop
            (day_core E f (stage_at f.crop st.stage_index) st w)).stage_index = _
          rw [h]
          show (day_core E f (stage_at f.crop st.stage_index) st w).stage_index + 1 = _
          rw [hdc]
      · intro i hi
        rw [hser]
        exact zipWith_stage f (w0' :: rest) _ i
          (by rw [← steps_from_length E f (w0' :: rest) (init_state f w0'.date)]; exact hi)
          hi

/-- Witness for C10: the decomposition identity at a concrete state and
day. -/
theorem stage_label_post_advance_witness :
    step_day E0 w_cfg (init_state w_cfg "2025-04-01") w_day =
      advance_stage w_cfg.crop
        (day_core E0 w_cfg
          (stage_at w_cfg.crop (init_state w_cfg "2025-04-01").stage_index)
          (init_state w_cfg "2025-04-01") w_day) :=
  (stage_label_post_advance E0 w_cfg [w_day] r0 w_day rfl run_w).1
    (init_state w_cfg "2025-04-01") w_day

/-- Overwrite only the soil water of a state (used to compare the two runs
of the irrigation scenario, which differ in nothing else). -/
def set_water (st : FieldState) (v : ℚ) : FieldState :=
  { st with soil_water_mm := v }

/-- Two states agree on every field except (possibly) the soil water. -/
def eqx (a b : FieldState) : Prop :=
  set_water a 0 = set_water b 0

lemma eqx_refl (a : FieldState) : eqx a a := rfl

lemma eqx_proj (a b : FieldState) (h : eqx a b) :
    a.date = b.date ∧ a.stage_index = b.stage_index ∧ a.gdd_accum = b.gdd_accum ∧
    a.dap = b.dap ∧ a.lai = b.lai ∧ a.biomass_dm_kg_ha = b.biomass_dm_kg_ha ∧
    a.stress_w = b.stress_w ∧ a.stress_n = b.stress_n ∧
    a.n_stock_kg_ha = b.n_stock_kg_ha ∧ a.p_stock_kg_ha = b.p_stock_kg_ha ∧
    a.k_stock_kg_ha = b.k_stock_kg_ha ∧ a.notes = b.notes := by
  cases a
  cases b
  simp only [eqx, set_water, FieldState.mk.injEq] at h
  obtain ⟨h1, h2, h3, h4, h5, h6, _, h7, h8, h9, h10, h11, h12⟩ := h
  exact ⟨h1, h2, h3, h4, h5, h6, h7, h8, h9, h10, h11, h12⟩

lemma eqx_mk (a b : FieldState)
    (h1 : a.date = b.date) (h2 : a.stage_index = b.stage_index)
    (h3 : a.gdd_accum = b.gdd_accum) (h4 : a.dap = b.dap) (h5 : a.lai = b.lai)
    (h6 : a.biomass_dm_kg_ha = b.biomass_dm_kg_ha) (h7 : a.stress_w = b.stress_w)
    (h8 : a.stress_n = b.stress_n) (h9 : a.n_stock_kg_ha = b.n_stock_kg_ha)
    (h10 : a.p_stock_kg_ha = b.p_stock_kg_ha) (h11 : a.k_stock_kg_ha = b.k_stock_kg_ha)
    (h12 : a.notes = b.notes) : eqx a b := by
  cases a
  cases b
  simp only [set_water, eqx, FieldState.mk.injEq] at *
  exact ⟨h1, h2, h3, h4, h5, h6, trivial, h7, h8, h9, h10, h11, h12⟩

lemma eqx_of_commute (g : FieldState → FieldState)
    (hg : ∀ (st : FieldState) (v : ℚ), g (set_water st v) = set_water (g st) v)
    (a b : FieldState) (h : eqx a b) : eqx (g a) (g b) := by
  unfold eqx at h ⊢
  have key : ∀ st : FieldState, set_water (g st) 0 = set_water (g (set_water st 0)) 0 := by
    intro st
    have h2 : g st = set_water (g (set_water st 0)) st.soil_water_mm :=
      hg (set_water st 0) st.soil_water_mm
    rw [h2]
    rfl
  rw [key a, key b, h]

lemma water_of_commute (g : FieldState → FieldState)
    (hg : ∀ (st : FieldState) (v : ℚ), g (set_water st v) = set_water (g st) v)
    (st : FieldState) : (g st).soil_water_mm = st.soil_water_mm := by
  have h := hg (set_water st 0) st.soil_water_mm
  have hst : set_water (set_water st 0) st.soil_water_mm = st := rfl
  rw [hst] at h
  rw [h]
  rfl

lemma uptake_step_set_water (n : String) (v : ℚ) (st : FieldState) (kv : String × ℚ) :
    uptake_step n (set_water st v) kv = set_water (uptake_step n st kv) v := by
  simp only [uptake_step, stock_set, set_water]
  split_ifs <;> rfl

lemma foldl_uptake_set_water (n : String) (v : ℚ) (l : List (String × ℚ)) :
    ∀ st : FieldState,
      l.foldl (uptake_step n) (set_water st v) = set_water (l.foldl (uptake_step n) st) v := by
  induction l with
  | nil => intro st; rfl
  | cons kv kvs ih =>
    intro st
    rw [List.foldl_cons, List.foldl_cons, uptake_step_set_water, ih]

lemma nutrients_set_water (stage : StageParams) (c : CropParams) (v : ℚ)
    (st : FieldState) :
    nutrients_update (set_water st v) stage c = set_water (nutrients_update st stage c) v := by
  unfold nutrients_update
  rw [foldl_uptake_set_water]
  rfl

lemma advance_set_water (c : CropParams) (v : ℚ) (st : FieldState) :
    advance_stage c (set_water st v) = set_water (advance_stage c st) v := by
  simp only [advance_stage, set_water]
  split <;> rfl

lemma wb_stress_one (st : FieldState) (soil : SoilProfile) (i e : ℚ)
    (hl : 0 ≤ st.lai) (he : 0 ≤ e) (hw : e ≤ st.soil_water_mm)
    (hcap : st.soil_water_mm ≤ rootzone_capacity soil)
    (hi : 0 ≤ i) (hth : 0 ≤ soil.runoff_threshold_mm) :
    wb_stress st soil i e = 1 ∧
    wb_transp_act st soil i e = wb_transp_pot st e ∧
    st.soil_water_mm - e ≤ wb_w4 st soil i e := by
  have hm0 : 0 ≤ min 1 (st.lai / 3) :=
    le_min (by norm_num) (div_nonneg hl (by norm_num))
  have hm1 : min 1 (st.lai / 3) ≤ 1 := min_le_left _ _
  have htp0 : 0 ≤ wb_transp_pot st e := wb_transp_pot_nonneg st e hl he
  have htpe : wb_transp_pot st e ≤ e := by
    unfold wb_transp_pot
    exact mul_le_of_le_one_right he hm1
  have hw2 : st.soil_water_mm ≤ wb_w2 st soil i :=
    le_min (by linarith [wb_runoff_net soil i hi hth]) hcap
  have hta : wb_transp_act st soil i e = wb_transp_pot st e :=
    min_eq_left (htpe.trans (hw.trans hw2))
  have hstress : wb_stress st soil i e = 1 := by
    have hpos : (0:ℚ) < wb_transp_pot st e + 0.000001 := by linarith
    unfold wb_stress
    rw [hta, div_self (ne_of_gt hpos), min_self]
    exact max_eq_right (by norm_num)
  have h3eq : wb_w3 st soil i e = wb_w2 st soil i - wb_transp_pot st e := by
    unfold wb_w3
    rw [hta]
  have hprod : max 0 (e - wb_transp_act st soil i e) * (1 - min 1 (st.lai / 3)) ≤
      e - wb_transp_pot st e := by
    rw [hta, max_eq_right (by linarith)]
    nlinarith [mul_le_of_le_one_right (sub_nonneg.mpr htpe)
      (show 1 - min 1 (st.lai / 3) ≤ 1 by linarith)]
  refine ⟨hstress, hta, ?_⟩
  have hevap : wb_soil_evap st soil i e ≤ e - wb_transp_pot st e :=
    (min_le_left _ _).trans hprod
  unfold wb_w4
  rw [h3eq]
  linarith

lemma water_balance_eqx (a b : FieldState) (soil : SoilProfile) (i1 i2 e : ℚ)
    (hab : eqx a b)
    (hs1 : wb_stress a soil i1 e = 1) (hs2 : wb_stress b soil i2 e = 1) :
    eqx (water_balance a soil i1 e) (water_balance b soil i2 e) := by
  obtain ⟨h1, h2, h3, h4, h5, h6, _, h8, h9, h10, h11, h12⟩ := eqx_proj a b hab
  refine eqx_mk _ _ ?_ ?_ ?_ ?_ ?_ ?_ ?_ ?_ ?_ ?_ ?_ ?_ <;>
    simp only [water_balance]
  exacts [h1, h2, h3, h4, h5, h6, by rw [hs1, hs2], h8, h9, h10, h11, h12]

lemma dc_st1_eqx (f1 f2 : FieldConfig) (hcrop : f1.crop = f2.crop)
    (a b : FieldState) (w : WeatherDay) (hab : eqx a b) :
    eqx (dc_st1 f1 a w) (dc_st1 f2 b w) := by
  obtain ⟨h1, h2, h3, h4, h5, h6, h7, h8, h9, h10, h11, h12⟩ := eqx_proj a b hab
  refine eqx_mk _ _ rfl h2 ?_ ?_ h5 h6 h7 h8 h9 h10 h11 h12
  · show a.gdd_accum + gdd_day w.tmin w.tmax f1.crop.tb =
      b.gdd_accum + gdd_day w.tmin w.tmax f2.crop.tb
    rw [h3, hcrop]
  · show a.dap + 1 = b.dap + 1
    rw [h4]

/-- The LAI and biomass updates at the end of `sim.step_day` as a function of
the post-nutrients state (`dc_st4` and the final biomass write of
`day_core`, with the locals `dc_lai_gain`, `dc_apar`, `dc_dB` inlined). -/
def lai_bio_update (E : ℚ → ℚ) (c : CropParams) (stage : StageParams)
    (w : WeatherDay) (st3 : FieldState) : FieldState :=
  let st4 := { st3 with
    lai := min c.lai_max (st3.lai + stage.lai_gain * st3.lai
      * (1 - st3.lai / c.lai_max) * st3.stress_w * st3.stress_n) }
  { st4 with
    biomass_dm_kg_ha := st4.biomass_dm_kg_ha + stage.rue
      * (w.rad * (1 - E (-0.65 * st4.lai))) * st4.stress_w * st4.stress_n }

lemma day_core_decomp (E : ℚ → ℚ) (f : FieldConfig) (stage : StageParams)
    (st : FieldState) (w : WeatherDay) :
    day_core E f stage st w =
      lai_bio_update E f.crop stage w
        (nutrients_update (dc_st2 f stage st w) stage f.crop) := rfl

lemma lai_bio_set_water (E : ℚ → ℚ) (c : CropParams) (stage : StageParams)
    (w : WeatherDay) (v : ℚ) (st : FieldState) :
    lai_bio_update E c stage w (set_water st v) =
      set_water (lai_bio_update E c stage w st) v := rfl

lemma nutrients_eqx (stage : StageParams) (c : CropParams) (a b : FieldState)
    (hab : eqx a b) :
    eqx (nutrients_update a stage c) (nutrients_update b stage c) :=
  eqx_of_commute (fun st => nutrients_update st stage c)
    (fun st v => nutrients_set_water stage c v st) a b hab

lemma advance_eqx (c : CropParams) (a b : FieldState) (hab : eqx a b) :
    eqx (advance_stage c a) (advance_stage c b) :=
  eqx_of_commute (advance_stage c) (fun st v => advance_set_water c v st) a b hab

lemma lai_bio_eqx (E : ℚ → ℚ) (c : CropParams) (stage : StageParams)
    (w : WeatherDay) (a b : FieldState) (hab : eqx a b) :
    eqx (lai_bio_update E c stage w a) (lai_bio_update E c stage w b) :=
  eqx_of_commute (lai_bio_update E c stage w)
    (fun st v => lai_bio_set_water E c stage w v st) a b hab

/-- One simulated day preserves agreement-up-to-soil-water between two runs
whose configurations share crop and soil, provided the day produces no water
stress in either run. -/
lemma step_day_eqx (E : ℚ → ℚ) (f1 f2 : FieldConfig)
    (hcrop : f1.crop = f2.crop) (hsoil : f1.soil = f2.soil)
    (a b : FieldState) (w : WeatherDay) (hab : eqx a b)
    (hs1 : wb_stress (dc_st1 f1 a w) f1.soil (dc_inflow f1 w)
      (dc_etc (stage_at f1.crop a.stage_index) w) = 1)
    (hs2 : wb_stress (dc_st1 f2 b w) f1.soil (dc_inflow f2 w)
      (dc_etc (stage_at f1.crop a.stage_index) w) = 1) :
    eqx (step_day E f1 a w) (step_day E f2 b w) := by
  have hidx : a.stage_index = b.stage_index := (eqx_proj a b hab).2.1
  have hstage2 : stage_at f2.crop b.stage_index = stage_at f1.crop a.stage_index := by
    rw [← hcrop, ← hidx]
  unfold step_day
  rw [hstage2, ← hcrop]
  apply advance_eqx
  rw [day_core_decomp, day_core_decomp, ← hcrop]
  apply lai_bio_eqx
  apply nutrients_eqx
  unfold dc_st2
  rw [← hsoil]
  exact water_balance_eqx _ _ f1.soil (dc_inflow f1 w) (dc_inflow f2 w)
    (dc_etc (stage_at f1.crop a.stage_index) w)
    (dc_st1_eqx f1 f2 hcrop a b w hab) hs1 hs2

lemma step_day_water (E : ℚ → ℚ) (f : FieldConfig) (st : FieldState) (w : WeatherDay) :
    (step_day E f st w).soil_water_mm =
      wb_w4 (dc_st1 f st w) f.soil (dc_inflow f w)
        (dc_etc (stage_at f.crop st.stage_index) w) := by
  unfold step_day
  rcases advance_stage_shape f.crop (day_core E f (stage_at f.crop st.stage_index) st w)
    with h | h <;> rw [h]
  · exact (day_core_proj E f (stage_at f.crop st.stage_index) st w).2.1
  · exact (day_core_proj E f (stage_at f.crop st.stage_index) st w).2.1

/-- Rainfed field of the dry-spell comparison in
`test_simulation.test_irrigation_effect_on_dry_spell`. -/
def cfg_dry : FieldConfig :=
  { id := "F2", name := "Dry Plot", area_ha := 1, soil := w_soil, crop := maize_defaults,
    management := { plant_date := "2025-04-01", density_plants_m2 := 6,
                    irrigation_mm_day := 0 } }

/-- Irrigated field of the dry-spell comparison (3 mm/day). -/
def cfg_irr : FieldConfig :=
  { id := "F3", name := "Irrigated Plot", area_ha := 1, soil := w_soil, crop := maize_defaults,
    management := { plant_date := "2025-04-01", density_plants_m2 := 6,
                    irrigation_mm_day := 3 } }

/-- One day of the dry spell: no rain, ET0 = 4.2 mm. -/
def c9_day (d : String) : WeatherDay :=
  ⟨d, 20, 31, 0, 18, some 4.2, none, none⟩

/-- Days 2-10 of the dry spell. -/
def c9_rest : List WeatherDay :=
  [c9_day "2025-04-02", c9_day "2025-04-03", c9_day "2025-04-04", c9_day "2025-04-05",
   c9_day "2025-04-06", c9_day "2025-04-07", c9_day "2025-04-08", c9_day "2025-04-09",
   c9_day "2025-04-10"]

/-- The 10-day dry spell. -/
def dry_weather : List WeatherDay := c9_day "2025-04-01" :: c9_rest

lemma c9_cap : rootzone_capacity w_soil = 150 := by
  have h : rootzone_capacity w_soil = max 0 (150:ℚ) + 0 := rfl
  rw [h, add_zero, max_eq_right (by norm_num : (0:ℚ) ≤ 150)]

lemma maize_stage_bounds : ∀ i : ℕ, i < 5 →
    0 ≤ (stage_at maize_defaults i).kc ∧ (stage_at maize_defaults i).kc ≤ 1.2 ∧
    0 ≤ (stage_at maize_defaults i).lai_gain := by
  with_unfolding_all decide

/-- Facts about one dry-spell day for either field: the day ends with no
water stress, the stage index stays below 5, LAI stays in `[0, 5]`, and the
soil water drops by at most ETc ≤ 4.2·1.2 = 5.04 mm while staying at or
below capacity. -/
lemma c9_side_step (E : ℚ → ℚ) (f : FieldConfig)
    (hc : f.crop = maize_defaults) (hs : f.soil = w_soil)
    (hirr : 0 ≤ f.management.irrigation_mm_day)
    (st : FieldState) (w : WeatherDay) (hrain : w.rain = 0) (het : w.et0 = some 4.2)
    (hidx : st.stage_index < 5) (hl0 : 0 ≤ st.lai) (hl5 : st.lai ≤ 5)
    (hw1 : 5.04 ≤ st.soil_water_mm) (hw2 : st.soil_water_mm ≤ 150) :
    wb_stress (dc_st1 f st w) f.soil (dc_inflow f w)
      (dc_etc (stage_at f.crop st.stage_index) w) = 1 ∧
    (step_day E f st w).stage_index < 5 ∧
    0 ≤ (step_day E f st w).lai ∧ (step_day E f st w).lai ≤ 5 ∧
    st.soil_water_mm - 5.04 ≤ (step_day E f st w).soil_water_mm ∧
    (step_day E f st w).soil_water_mm ≤ 150 := by
  obtain ⟨hk0, hk12, hlg0⟩ := maize_stage_bounds st.stage_index hidx
  have het0 : dc_et0 w = 4.2 := by
    unfold dc_et0
    rw [het]
  have hetc_lb : 0 ≤ dc_etc (stage_at f.crop st.stage_index) w := dc_etc_nonneg _ _
  have hetc_ub : dc_etc (stage_at f.crop st.stage_index) w ≤ 5.04 := by
    unfold dc_etc etc_from_kc
    rw [het0, hc]
    exact max_le (by norm_num) (by nlinarith)
  have hinfl0 : 0 ≤ dc_inflow f w := by
    unfold dc_inflow
    rw [hrain]
    linarith
  have hth : 0 ≤ f.soil.runoff_threshold_mm := by
    rw [hs]
    norm_num [w_soil]
  have hcap : rootzone_capacity f.soil = 150 := by rw [hs, c9_cap]
  have hd1w : (dc_st1 f st w).soil_water_mm = st.soil_water_mm := rfl
  have hd1l : (dc_st1 f st w).lai = st.lai := rfl
  have hso := wb_stress_one (dc_st1 f st w) f.soil (dc_inflow f w)
    (dc_etc (stage_at f.crop st.stage_index) w)
    (by rw [hd1l]; exact hl0) hetc_lb
    (by rw [hd1w]; linarith)
    (by rw [hd1w, hcap]; exact hw2) hinfl0 hth
  have hlen : f.crop.stages.length = 5 := by rw [hc]; rfl
  have hrain0 : 0 ≤ w.rain := by rw [hrain]
  have hlg : 0 ≤ (stage_at f.crop st.stage_index).lai_gain := by rw [hc]; exact hlg0
  have hlm : (0.05:ℚ) ≤ f.crop.lai_max := by
    rw [hc]
    norm_num [maize_defaults]
  have hlc : st.lai ≤ f.crop.lai_max := by rw [hc]; exact hl5
  have hb := step_day_bounds E f st w hrain0 hirr hth hlg hlm (by linarith) hl0 hlc
  refine ⟨hso.1, ?_, hb.2.2.2.1, ?_, ?_, ?_⟩
  · have h5 := (step_day_proj_index E f st w).2.2 (by rw [hlen]; exact hidx)
    rw [hlen] at h5
    exact h5
  · have := hb.2.2.2.2
    rw [hc] at this
    exact this
  · rw [step_day_water]
    have hlow := hso.2.2
    rw [hd1w] at hlow
    linarith
  · rw [step_day_water]
    have hup := wb_w4_le_cap (dc_st1 f st w) f.soil (dc_inflow f w)
      (dc_etc (stage_at f.crop st.stage_index) w)
      (by rw [hd1w]; linarith) (by rw [hd1l]; exact hl0) hinfl0 hth hetc_lb
    rw [hcap] at hup
    exact hup

/-- Along any all-dry weather list (no rain, ET0 = 4.2) the rainfed and
irrigated runs stay in lockstep except for soil water, as long as the
starting water suffices to cover the worst-case ETc of every remaining
day. -/
lemma c9_run (E : ℚ → ℚ) : ∀ (ws : List WeatherDay) (a b : FieldState),
    (∀ w ∈ ws, w.rain = 0 ∧ w.et0 = some 4.2) →
    eqx a b → a.stage_index < 5 → 0 ≤ a.lai → a.lai ≤ 5 →
    5.04 * ws.length ≤ a.soil_water_mm → a.soil_water_mm ≤ 150 →
    5.04 * ws.length ≤ b.soil_water_mm → b.soil_water_mm ≤ 150 →
    List.Forall₂ eqx (steps_from E cfg_dry a ws) (steps_from E cfg_irr b ws) := by
  intro ws
  induction ws with
  | nil =>
    intro a b _ _ _ _ _ _ _ _ _
    exact List.Forall₂.nil
  | cons w ws ih =>
    intro a b hw hab hidx hl0 hl5 hwa1 hwa2 hwb1 hwb2
    obtain ⟨hrain, het⟩ := hw w (List.mem_cons_self w ws)
    have hwtail : ∀ v ∈ ws, v.rain = 0 ∧ v.et0 = some 4.2 :=
      fun v hv => hw v (List.mem_cons_of_mem w hv)
    have hlen_cast : (5.04:ℚ) * (((w :: ws).length : ℕ) : ℚ) =
        5.04 * ((ws.length : ℕ) : ℚ) + 5.04 := by
      push_cast [List.length_cons]
      ring
    have hnn : (0:ℚ) ≤ 5.04 * ((ws.length : ℕ) : ℚ) := by positivity
    have hwa1' : (5.04:ℚ) ≤ a.soil_water_mm := by
      rw [hlen_cast] at hwa1
      linarith
    have hwb1' : (5.04:ℚ) ≤ b.soil_water_mm := by
      rw [hlen_cast] at hwb1
      linarith
    obtain ⟨_, hbidx, _, _, hblai, _, _, _, _, _, _, _⟩ := eqx_proj a b hab
    have hdry := c9_side_step E cfg_dry rfl rfl (le_refl (0:ℚ)) a w hrain het
      hidx hl0 hl5 hwa1' hwa2
    have hirrs := c9_side_step E cfg_irr rfl rfl (by norm_num : (0:ℚ) ≤ 3) b w hrain het
      (hbidx ▸ hidx) (hblai ▸ hl0) (hblai ▸ hl5) hwb1' hwb2
    have hs2 : wb_stress (dc_st1 cfg_irr b w) cfg_irr.soil (dc_inflow cfg_irr w)
        (dc_etc (stage_at cfg_irr.crop a.stage_index) w) = 1 := by
      have h := hirrs.1
      rw [← hbidx] at h
      exact h
    have hstep : eqx (step_day E cfg_dry a w) (step_day E cfg_irr b w) :=
      step_day_eqx E cfg_dry cfg_irr rfl rfl a b w hab hdry.1 hs2
    rw [steps_from_cons, steps_from_cons]
    refine List.Forall₂.cons hstep ?_
    refine ih (step_day E cfg_dry a w) (step_day E cfg_irr b w) hwtail hstep
      hdry.2.1 hdry.2.2.1 hdry.2.2.2.1 ?_ hdry.2.2.2.2.2 ?_ hirrs.2.2.2.2.2
    · have := hdry.2.2.2.2.1
      rw [hlen_cast] at hwa1
      linarith
    · have := hirrs.2.2.2.2.1
      rw [hlen_cast] at hwb1
      linarith

/-- Two recorded days agree on everything `estimate_yield`'s yield component
reads: date, stage label, water stress, biomass. -/
def day_eqx (d1 d2 : DayResult) : Prop :=
  d1.date = d2.date ∧ d1.stage = d2.stage ∧ d1.stress_w = d2.stress_w ∧
  d1.biomass_dm_kg_ha = d2.biomass_dm_kg_ha

lemma zip_day_eqx :
    ∀ (ws : List WeatherDay) {l1 l2 : List FieldState}, List.Forall₂ eqx l1 l2 →
      List.Forall₂ day_eqx (List.zipWith (mk_day_result cfg_dry) ws l1)
        (List.zipWith (mk_day_result cfg_irr) ws l2) := by
  intro ws l1 l2 h
  induction h generalizing ws with
  | nil =>
    rw [List.zipWith_nil_right, List.zipWith_nil_right]
    exact List.Forall₂.nil
  | @cons a b l1' l2' hab htail ih =>
    cases ws with
    | nil => exact List.Forall₂.nil
    | cons w ws' =>
      rw [List.zipWith_cons_cons, List.zipWith_cons_cons]
      refine List.Forall₂.cons ?_ (ih ws')
      obtain ⟨_, hidx, _, _, _, hbio, hsw, _, _, _, _, _⟩ := eqx_proj a b hab
      refine ⟨rfl, ?_, hsw, hbio⟩
      show (stage_at cfg_dry.crop a.stage_index).name =
        (stage_at cfg_irr.crop b.stage_index).name
      rw [← hidx]
      rfl

lemma forall2_stage_map : ∀ {l1 l2 : List DayResult}, List.Forall₂ day_eqx l1 l2 →
    l1.map (fun d => d.stage) = l2.map (fun d => d.stage) := by
  intro l1 l2 h
  induction h with
  | nil => rfl
  | cons hab _ ih =>
    rw [List.map_cons, List.map_cons, hab.2.1, ih]

lemma forall2_stage_stress (name : String) :
    ∀ {l1 l2 : List DayResult}, List.Forall₂ day_eqx l1 l2 →
      (l1.filter (fun d => d.stage == name)).map (fun d => d.stress_w) =
        (l2.filter (fun d => d.stage == name)).map (fun d => d.stress_w) := by
  intro l1 l2 h
  induction h with
  | nil => rfl
  | @cons a b l1' l2' hab _ ih =>
    rw [List.filter_cons, List.filter_cons, hab.2.1]
    split_ifs
    · rw [List.map_cons, List.map_cons, hab.2.2.1, ih]
    · exact ih

lemma forall2_last_biomass :
    ∀ {l1 l2 : List DayResult}, List.Forall₂ day_eqx l1 l2 →
      ∀ d1 d2 : DayResult, d1.biomass_dm_kg_ha = d2.biomass_dm_kg_ha →
        (l1.getLastD d1).biomass_dm_kg_ha = (l2.getLastD d2).biomass_dm_kg_ha := by
  intro l1 l2 h
  induction h with
  | nil => intro d1 d2 hd; exact hd
  | @cons a b l1' l2' hab _ ih =>
    intro d1 d2 _
    rw [List.getLastD_cons, List.getLastD_cons]
    exact ih a b hab.2.2.2

/-- Pointwise day agreement makes the two yield estimates equal (the yield
component reads only the final biomass and the per-stage stress minima, and
the two configurations share the same crop parameters). -/
lemma c9_yield_eq (l1 l2 : List DayResult) (h : List.Forall₂ day_eqx l1 l2) :
    (estimate_yield cfg_dry l1).1 = (estimate_yield cfg_irr l2).1 := by
  have hfm : ey_flower_min l1 = ey_flower_min l2 := by
    unfold ey_flower_min stage_min_w
    rw [forall2_stage_map h, forall2_stage_stress "flowering" h]
  have hgm : ey_grain_min l1 = ey_grain_min l2 := by
    unfold ey_grain_min stage_min_w
    rw [forall2_stage_map h, forall2_stage_stress "grainfill" h]
  have hcc : ey_hi_eff cfg_irr l2 = ey_hi_eff cfg_dry l2 := rfl
  have hhe : ey_hi_eff cfg_dry l1 = ey_hi_eff cfg_irr l2 := by
    rw [hcc]
    unfold ey_hi_eff ey_hi_penalty
    rw [hfm, hgm]
  have hb := forall2_last_biomass h default_day default_day rfl
  show (l1.getLastD default_day).biomass_dm_kg_ha * ey_hi_eff cfg_dry l1 / 1000 =
    (l2.getLastD default_day).biomass_dm_kg_ha * ey_hi_eff cfg_irr l2 / 1000
  rw [hb, hhe]

lemma c9_init_water_dry (d : String) : (init_state cfg_dry d).soil_water_mm = 120 := by
  show min 120 (rootzone_capacity cfg_dry.soil) = 120
  rw [show cfg_dry.soil = w_soil from rfl, c9_cap,
    min_eq_left (by norm_num : (120:ℚ) ≤ 150)]

lemma c9_init_water_irr (d : String) : (init_state cfg_irr d).soil_water_mm = 120 := by
  show min 120 (rootzone_capacity cfg_irr.soil) = 120
  rw [show cfg_irr.soil = w_soil from rfl, c9_cap,
    min_eq_left (by norm_num : (120:ℚ) ≤ 150)]

/-- C9: on the 10-day dry spell of `test_irrigation_effect_on_dry_spell`
(no rain, ET0 = 4.2 mm), running the maize field rainfed and with 3 mm/day
irrigation both succeed, and irrigation never lowers the estimated yield:
both runs end with defined yields and the irrigated yield is at least the
rainfed one (for any exponential function `E` used in the APAR term). -/
theorem irrigation_yield_not_less (E : ℚ → ℚ) :
    ∃ rd ri : RunResult,
      run_field E cfg_dry dry_weather = some rd ∧
      run_field E cfg_irr dry_weather = some ri ∧
      ∃ y_dry y_irr : ℚ, rd.yield_t_ha = some y_dry ∧ ri.yield_t_ha = some y_irr ∧
        y_dry ≤ y_irr := by
  have hne1 : cfg_dry.crop.stages ≠ [] := List.cons_ne_nil _ _
  have hne2 : cfg_irr.crop.stages ≠ [] := List.cons_ne_nil _ _
  have hrd := run_field_unfold E cfg_dry (c9_day "2025-04-01") c9_rest hne1
  have hri := run_field_unfold E cfg_irr (c9_day "2025-04-01") c9_rest hne2
  have hweather : ∀ w ∈ c9_day "2025-04-01" :: c9_rest,
      w.rain = 0 ∧ w.et0 = some 4.2 := by
    intro w hw
    simp only [c9_rest, List.mem_cons, List.not_mem_nil, or_false] at hw
    rcases hw with rfl | rfl | rfl | rfl | rfl | rfl | rfl | rfl | rfl | rfl <;>
      exact ⟨rfl, rfl⟩
  have hforall := c9_run E (c9_day "2025-04-01" :: c9_rest)
    (init_state cfg_dry (c9_day "2025-04-01").date)
    (init_state cfg_irr (c9_day "2025-04-01").date)
    hweather rfl
    (by norm_num [init_state])
    (by norm_num [init_state])
    (by norm_num [init_state])
    (by rw [c9_init_water_dry]; norm_num [c9_rest])
    (by rw [c9_init_water_dry]; norm_num)
    (by rw [c9_init_water_irr]; norm_num [c9_rest])
    (by rw [c9_init_water_irr]; norm_num)
  have hday := zip_day_eqx (c9_day "2025-04-01" :: c9_rest) hforall
  have hyeq := c9_yield_eq _ _ hday
  exact ⟨_, _, hrd, hri, _, _, rfl, rfl, le_of_eq hyeq⟩

/-- Witness for C9: the theorem instantiated at the concrete stand-in
exponential. -/
theorem irrigation_yield_not_less_witness :
    ∃ rd ri : RunResult,
      run_field E0 cfg_dry dry_weather = some rd ∧
      run_field E0 cfg_irr dry_weather = some ri ∧
      ∃ y_dry y_irr : ℚ, rd.yield_t_ha = some y_dry ∧ ri.yield_t_ha = some y_irr ∧
        y_dry ≤ y_irr :=
  irrigation_yield_not_less E0
